import Mathlib

/-!
Verification of the point-cloud Marching Cubes reconstruction engine.

The development shallowly embeds the two implementations of the engine:
the sequential reference implementation (class CPUMarchingCubes: lookup
tables, buildDensityField, interpolateVertex/interpolateColor, march,
reconstruct) and the WGSL compute pipeline (splatPointsShader,
normalizeDensityShader, marchingCubesShader) together with the
MeshReconstructor orchestrator.  JavaScript / f32 numbers are modelled as
real numbers; typed arrays are modelled as total functions from indices to
reals that are zero outside the written range.  Infinity, which the
sequential reconstruct stores into gridMin/gridMax when the point count is
zero, is modelled with EReal in the bounding-box computation.
-/

namespace PCMesh

/-- The 256-entry edge activation table of the sequential implementation
(constant edgeTable in the CPU module). -/
def edgeTable : List Nat := [
  0x0, 0x109, 0x203, 0x30a, 0x406, 0x50f, 0x605, 0x70c, 0x80c, 0x905, 0xa0f, 0xb06, 0xc0a, 0xd03, 0xe09, 0xf00,
  0x190, 0x99, 0x393, 0x29a, 0x596, 0x49f, 0x795, 0x69c, 0x99c, 0x895, 0xb9f, 0xa96, 0xd9a, 0xc93, 0xf99, 0xe90,
  0x230, 0x339, 0x33, 0x13a, 0x636, 0x73f, 0x435, 0x53c, 0xa3c, 0xb35, 0x83f, 0x936, 0xe3a, 0xf33, 0xc39, 0xd30,
  0x3a0, 0x2a9, 0x1a3, 0xaa, 0x7a6, 0x6af, 0x5a5, 0x4ac, 0xbac, 0xaa5, 0x9af, 0x8a6, 0xfaa, 0xea3, 0xda9, 0xca0,
  0x460, 0x569, 0x663, 0x76a, 0x66, 0x16f, 0x265, 0x36c, 0xc6c, 0xd65, 0xe6f, 0xf66, 0x86a, 0x963, 0xa69, 0xb60,
  0x5f0, 0x4f9, 0x7f3, 0x6fa, 0x1f6, 0xff, 0x3f5, 0x2fc, 0xdfc, 0xcf5, 0xfff, 0xef6, 0x9fa, 0x8f3, 0xbf9, 0xaf0,
  0x650, 0x759, 0x453, 0x55a, 0x256, 0x35f, 0x55, 0x15c, 0xe5c, 0xf55, 0xc5f, 0xd56, 0xa5a, 0xb53, 0x859, 0x950,
  0x7c0, 0x6c9, 0x5c3, 0x4ca, 0x3c6, 0x2cf, 0x1c5, 0xcc, 0xfcc, 0xec5, 0xdcf, 0xcc6, 0xbca, 0xac3, 0x9c9, 0x8c0,
  0x8c0, 0x9c9, 0xac3, 0xbca, 0xcc6, 0xdcf, 0xec5, 0xfcc, 0xcc, 0x1c5, 0x2cf, 0x3c6, 0x4ca, 0x5c3, 0x6c9, 0x7c0,
  0x950, 0x859, 0xb53, 0xa5a, 0xd56, 0xc5f, 0xf55, 0xe5c, 0x15c, 0x55, 0x35f, 0x256, 0x55a, 0x453, 0x759, 0x650,
  0xaf0, 0xbf9, 0x8f3, 0x9fa, 0xef6, 0xfff, 0xcf5, 0xdfc, 0x2fc, 0x3f5, 0xff, 0x1f6, 0x6fa, 0x7f3, 0x4f9, 0x5f0,
  0xb60, 0xa69, 0x963, 0x86a, 0xf66, 0xe6f, 0xd65, 0xc6c, 0x36c, 0x265, 0x16f, 0x66, 0x76a, 0x663, 0x569, 0x460,
  0xca0, 0xda9, 0xea3, 0xfaa, 0x8a6, 0x9af, 0xaa5, 0xbac, 0x4ac, 0x5a5, 0x6af, 0x7a6, 0xaa, 0x1a3, 0x2a9, 0x3a0,
  0xd30, 0xc39, 0xf33, 0xe3a, 0x936, 0x83f, 0xb35, 0xa3c, 0x53c, 0x435, 0x73f, 0x636, 0x13a, 0x33, 0x339, 0x230,
  0xe90, 0xf99, 0xc93, 0xd9a, 0xa96, 0xb9f, 0x895, 0x99c, 0x69c, 0x795, 0x49f, 0x596, 0x29a, 0x393, 0x99, 0x190,
  0xf00, 0xe09, 0xd03, 0xc0a, 0xb06, 0xa0f, 0x905, 0x80c, 0x70c, 0x605, 0x50f, 0x406, 0x30a, 0x203, 0x109, 0x0]

/-- The 256-row triangle table of the sequential implementation
(constant triTable in the CPU module); each row is a run of edge indices,
row 0 carrying an explicit -1 sentinel. -/
def triTable : List (List Int) := [
  [-1],
  [0, 8, 3],
  [0, 1, 9],
  [1, 8, 3, 9, 8, 1],
  [1, 2, 10],
  [0, 8, 3, 1, 2, 10],
  [9, 2, 10, 0, 2, 9],
  [2, 8, 3, 2, 10, 8, 10, 9, 8],
  [3, 11, 2],
  [0, 11, 2, 8, 11, 0],
  [1, 9, 0, 2, 3, 11],
  [1, 11, 2, 1, 9, 11, 9, 8, 11],
  [3, 10, 1, 11, 10, 3],
  [0, 10, 1, 0, 8, 10, 8, 11, 10],
  [3, 9, 0, 3, 11, 9, 11, 10, 9],
  [9, 8, 10, 10, 8, 11],
  [4, 7, 8],
  [4, 3, 0, 7, 3, 4],
  [0, 1, 9, 8, 4, 7],
  [4, 1, 9, 4, 7, 1, 7, 3, 1],
  [1, 2, 10, 8, 4, 7],
  [3, 4, 7, 3, 0, 4, 1, 2, 10],
  [9, 2, 10, 9, 0, 2, 8, 4, 7],
  [2, 10, 9, 2, 9, 7, 2, 7, 3, 7, 9, 4],
  [8, 4, 7, 3, 11, 2],
  [11, 4, 7, 11, 2, 4, 2, 0, 4],
  [9, 0, 1, 8, 4, 7, 2, 3, 11],
  [4, 7, 11, 9, 4, 11, 9, 11, 2, 9, 2, 1],
  [3, 10, 1, 3, 11, 10, 7, 8, 4],
  [1, 11, 10, 1, 4, 11, 1, 0, 4, 7, 11, 4],
  [4, 7, 8, 9, 0, 11, 9, 11, 10, 11, 0, 3],
  [4, 7, 11, 4, 11, 9, 9, 11, 10],
  [9, 5, 4],
  [9, 5, 4, 0, 8, 3],
  [0, 5, 4, 1, 5, 0],
  [8, 5, 4, 8, 3, 5, 3, 1, 5],
  [1, 2, 10, 9, 5, 4],
  [3, 0, 8, 1, 2, 10, 4, 9, 5],
  [5, 2, 10, 5, 4, 2, 4, 0, 2],
  [2, 10, 5, 3, 2, 5, 3, 5, 4, 3, 4, 8],
  [9, 5, 4, 2, 3, 11],
  [0, 11, 2, 0, 8, 11, 4, 9, 5],
  [0, 5, 4, 0, 1, 5, 2, 3, 11],
  [2, 1, 5, 2, 5, 8, 2, 8, 11, 4, 8, 5],
  [10, 3, 11, 10, 1, 3, 9, 5, 4],
  [4, 9, 5, 0, 8, 1, 8, 10, 1, 8, 11, 10],
  [5, 4, 0, 5, 0, 11, 5, 11, 10, 11, 0, 3],
  [5, 4, 8, 5, 8, 10, 10, 8, 11],
  [9, 7, 8, 5, 7, 9],
  [9, 3, 0, 9, 5, 3, 5, 7, 3],
  [0, 7, 8, 0, 1, 7, 1, 5, 7],
  [1, 5, 3, 3, 5, 7],
  [9, 7, 8, 9, 5, 7, 10, 1, 2],
  [10, 1, 2, 9, 5, 0, 5, 3, 0, 5, 7, 3],
  [8, 0, 2, 8, 2, 5, 8, 5, 7, 10, 5, 2],
  [2, 10, 5, 2, 5, 3, 3, 5, 7],
  [7, 9, 5, 7, 8, 9, 3, 11, 2],
  [9, 5, 7, 9, 7, 2, 9, 2, 0, 2, 7, 11],
  [2, 3, 11, 0, 1, 8, 1, 7, 8, 1, 5, 7],
  [11, 2, 1, 11, 1, 7, 7, 1, 5],
  [9, 5, 8, 8, 5, 7, 10, 1, 3, 10, 3, 11],
  [5, 7, 0, 5, 0, 9, 7, 11, 0, 1, 0, 10, 11, 10, 0],
  [11, 10, 0, 11, 0, 3, 10, 5, 0, 8, 0, 7, 5, 7, 0],
  [11, 10, 5, 7, 11, 5],
  [10, 6, 5],
  [0, 8, 3, 5, 10, 6],
  [9, 0, 1, 5, 10, 6],
  [1, 8, 3, 1, 9, 8, 5, 10, 6],
  [1, 6, 5, 2, 6, 1],
  [1, 6, 5, 1, 2, 6, 3, 0, 8],
  [9, 6, 5, 9, 0, 6, 0, 2, 6],
  [5, 9, 8, 5, 8, 2, 5, 2, 6, 3, 2, 8],
  [2, 3, 11, 10, 6, 5],
  [11, 0, 8, 11, 2, 0, 10, 6, 5],
  [0, 1, 9, 2, 3, 11, 5, 10, 6],
  [5, 10, 6, 1, 9, 2, 9, 11, 2, 9, 8, 11],
  [6, 3, 11, 6, 5, 3, 5, 1, 3],
  [0, 8, 11, 0, 11, 5, 0, 5, 1, 5, 11, 6],
  [3, 11, 6, 0, 3, 6, 0, 6, 5, 0, 5, 9],
  [6, 5, 9, 6, 9, 11, 11, 9, 8],
  [5, 10, 6, 4, 7, 8],
  [4, 3, 0, 4, 7, 3, 6, 5, 10],
  [1, 9, 0, 5, 10, 6, 8, 4, 7],
  [10, 6, 5, 1, 9, 7, 1, 7, 3, 7, 9, 4],
  [6, 1, 2, 6, 5, 1, 4, 7, 8],
  [1, 2, 5, 5, 2, 6, 3, 0, 4, 3, 4, 7],
  [8, 4, 7, 9, 0, 5, 0, 6, 5, 0, 2, 6],
  [7, 3, 9, 7, 9, 4, 3, 2, 9, 5, 9, 6, 2, 6, 9],
  [3, 11, 2, 7, 8, 4, 10, 6, 5],
  [5, 10, 6, 4, 7, 2, 4, 2, 0, 2, 7, 11],
  [0, 1, 9, 4, 7, 8, 2, 3, 11, 5, 10, 6],
  [9, 2, 1, 9, 11, 2, 9, 4, 11, 7, 11, 4, 5, 10, 6],
  [8, 4, 7, 3, 11, 5, 3, 5, 1, 5, 11, 6],
  [5, 1, 11, 5, 11, 6, 1, 0, 11, 7, 11, 4, 0, 4, 11],
  [0, 5, 9, 0, 6, 5, 0, 3, 6, 11, 6, 3, 8, 4, 7],
  [6, 5, 9, 6, 9, 11, 4, 7, 9, 7, 11, 9],
  [10, 4, 9, 6, 4, 10],
  [4, 10, 6, 4, 9, 10, 0, 8, 3],
  [10, 0, 1, 10, 6, 0, 6, 4, 0],
  [8, 3, 1, 8, 1, 6, 8, 6, 4, 6, 1, 10],
  [1, 4, 9, 1, 2, 4, 2, 6, 4],
  [3, 0, 8, 1, 2, 9, 2, 4, 9, 2, 6, 4],
  [0, 2, 4, 4, 2, 6],
  [8, 3, 2, 8, 2, 4, 4, 2, 6],
  [10, 4, 9, 10, 6, 4, 11, 2, 3],
  [0, 8, 2, 2, 8, 11, 4, 9, 10, 4, 10, 6],
  [3, 11, 2, 0, 1, 6, 0, 6, 4, 6, 1, 10],
  [6, 4, 1, 6, 1, 10, 4, 8, 1, 2, 1, 11, 8, 11, 1],
  [9, 6, 4, 9, 3, 6, 9, 1, 3, 11, 6, 3],
  [8, 11, 1, 8, 1, 0, 11, 6, 1, 9, 1, 4, 6, 4, 1],
  [3, 11, 6, 3, 6, 0, 0, 6, 4],
  [6, 4, 8, 11, 6, 8],
  [7, 10, 6, 7, 8, 10, 8, 9, 10],
  [0, 7, 3, 0, 10, 7, 0, 9, 10, 6, 7, 10],
  [10, 6, 7, 1, 10, 7, 1, 7, 8, 1, 8, 0],
  [10, 6, 7, 10, 7, 1, 1, 7, 3],
  [1, 2, 6, 1, 6, 8, 1, 8, 9, 8, 6, 7],
  [2, 6, 9, 2, 9, 1, 6, 7, 9, 0, 9, 3, 7, 3, 9],
  [7, 8, 0, 7, 0, 6, 6, 0, 2],
  [7, 3, 2, 6, 7, 2],
  [2, 3, 11, 10, 6, 8, 10, 8, 9, 8, 6, 7],
  [2, 0, 7, 2, 7, 11, 0, 9, 7, 6, 7, 10, 9, 10, 7],
  [1, 8, 0, 1, 7, 8, 1, 10, 7, 6, 7, 10, 2, 3, 11],
  [11, 2, 1, 11, 1, 7, 10, 6, 1, 6, 7, 1],
  [8, 9, 6, 8, 6, 7, 9, 1, 6, 11, 6, 3, 1, 3, 6],
  [0, 9, 1, 11, 6, 7],
  [7, 8, 0, 7, 0, 6, 3, 11, 0, 11, 6, 0],
  [7, 11, 6],
  [7, 6, 11],
  [3, 0, 8, 11, 7, 6],
  [0, 1, 9, 11, 7, 6],
  [8, 1, 9, 8, 3, 1, 11, 7, 6],
  [10, 1, 2, 6, 11, 7],
  [1, 2, 10, 3, 0, 8, 6, 11, 7],
  [2, 9, 0, 2, 10, 9, 6, 11, 7],
  [6, 11, 7, 2, 10, 3, 10, 8, 3, 10, 9, 8],
  [7, 2, 3, 6, 2, 7],
  [7, 0, 8, 7, 6, 0, 6, 2, 0],
  [2, 7, 6, 2, 3, 7, 0, 1, 9],
  [1, 6, 2, 1, 8, 6, 1, 9, 8, 8, 7, 6],
  [10, 7, 6, 10, 1, 7, 1, 3, 7],
  [10, 7, 6, 1, 7, 10, 1, 8, 7, 1, 0, 8],
  [0, 3, 7, 0, 7, 10, 0, 10, 9, 6, 10, 7],
  [7, 6, 10, 7, 10, 8, 8, 10, 9],
  [6, 8, 4, 11, 8, 6],
  [3, 6, 11, 3, 0, 6, 0, 4, 6],
  [8, 6, 11, 8, 4, 6, 9, 0, 1],
  [9, 4, 6, 9, 6, 3, 9, 3, 1, 11, 3, 6],
  [6, 8, 4, 6, 11, 8, 2, 10, 1],
  [1, 2, 10, 3, 0, 11, 0, 6, 11, 0, 4, 6],
  [4, 11, 8, 4, 6, 11, 0, 2, 9, 2, 10, 9],
  [10, 9, 3, 10, 3, 2, 9, 4, 3, 11, 3, 6, 4, 6, 3],
  [8, 2, 3, 8, 4, 2, 4, 6, 2],
  [0, 4, 2, 4, 6, 2],
  [1, 9, 0, 2, 3, 4, 2, 4, 6, 4, 3, 8],
  [1, 9, 4, 1, 4, 2, 2, 4, 6],
  [8, 1, 3, 8, 6, 1, 8, 4, 6, 6, 10, 1],
  [10, 1, 0, 10, 0, 6, 6, 0, 4],
  [4, 6, 3, 4, 3, 8, 6, 10, 3, 0, 3, 9, 10, 9, 3],
  [10, 9, 4, 6, 10, 4],
  [4, 9, 5, 7, 6, 11],
  [0, 8, 3, 4, 9, 5, 11, 7, 6],
  [5, 0, 1, 5, 4, 0, 7, 6, 11],
  [11, 7, 6, 8, 3, 4, 3, 5, 4, 3, 1, 5],
  [9, 5, 4, 10, 1, 2, 7, 6, 11],
  [6, 11, 7, 1, 2, 10, 0, 8, 3, 4, 9, 5],
  [7, 6, 11, 5, 4, 10, 4, 2, 10, 4, 0, 2],
  [3, 4, 8, 3, 5, 4, 3, 2, 5, 10, 5, 2, 11, 7, 6],
  [7, 2, 3, 7, 6, 2, 5, 4, 9],
  [9, 5, 4, 0, 8, 6, 0, 6, 2, 6, 8, 7],
  [3, 6, 2, 3, 7, 6, 1, 5, 0, 5, 4, 0],
  [6, 2, 8, 6, 8, 7, 2, 1, 8, 4, 8, 5, 1, 5, 8],
  [9, 5, 4, 10, 1, 6, 1, 7, 6, 1, 3, 7],
  [1, 6, 10, 1, 7, 6, 1, 0, 7, 8, 7, 0, 9, 5, 4],
  [4, 0, 10, 4, 10, 5, 0, 3, 10, 6, 10, 7, 3, 7, 10],
  [7, 6, 10, 7, 10, 8, 5, 4, 10, 4, 8, 10],
  [6, 9, 5, 6, 11, 9, 11, 8, 9],
  [3, 6, 11, 0, 6, 3, 0, 5, 6, 0, 9, 5],
  [0, 11, 8, 0, 5, 11, 0, 1, 5, 5, 6, 11],
  [6, 11, 3, 6, 3, 5, 5, 3, 1],
  [1, 2, 10, 9, 5, 11, 9, 11, 8, 11, 5, 6],
  [0, 11, 3, 0, 6, 11, 0, 9, 6, 5, 6, 9, 1, 2, 10],
  [11, 8, 5, 11, 5, 6, 8, 0, 5, 10, 5, 2, 0, 2, 5],
  [6, 11, 3, 6, 3, 5, 2, 10, 3, 10, 5, 3],
  [5, 8, 9, 5, 2, 8, 5, 6, 2, 3, 8, 2],
  [9, 5, 6, 9, 6, 0, 0, 6, 2],
  [1, 5, 8, 1, 8, 0, 5, 6, 8, 3, 8, 2, 6, 2, 8],
  [1, 5, 6, 2, 1, 6],
  [1, 3, 6, 1, 6, 10, 3, 8, 6, 5, 6, 9, 8, 9, 6],
  [10, 1, 0, 10, 0, 6, 9, 5, 0, 5, 6, 0],
  [0, 3, 8, 5, 6, 10],
  [10, 5, 6],
  [11, 5, 10, 7, 5, 11],
  [11, 5, 10, 11, 7, 5, 8, 3, 0],
  [5, 11, 7, 5, 10, 11, 1, 9, 0],
  [10, 7, 5, 10, 11, 7, 9, 8, 1, 8, 3, 1],
  [11, 1, 2, 11, 7, 1, 7, 5, 1],
  [0, 8, 3, 1, 2, 7, 1, 7, 5, 7, 2, 11],
  [9, 7, 5, 9, 2, 7, 9, 0, 2, 2, 11, 7],
  [7, 5, 2, 7, 2, 11, 5, 9, 2, 3, 2, 8, 9, 8, 2],
  [2, 5, 10, 2, 3, 5, 3, 7, 5],
  [8, 2, 0, 8, 5, 2, 8, 7, 5, 10, 2, 5],
  [9, 0, 1, 5, 10, 3, 5, 3, 7, 3, 10, 2],
  [9, 8, 2, 9, 2, 1, 8, 7, 2, 10, 2, 5, 7, 5, 2],
  [1, 3, 5, 3, 7, 5],
  [0, 8, 7, 0, 7, 1, 1, 7, 5],
  [9, 0, 3, 9, 3, 5, 5, 3, 7],
  [9, 8, 7, 5, 9, 7],
  [5, 8, 4, 5, 10, 8, 10, 11, 8],
  [5, 0, 4, 5, 11, 0, 5, 10, 11, 11, 3, 0],
  [0, 1, 9, 8, 4, 10, 8, 10, 11, 10, 4, 5],
  [10, 11, 4, 10, 4, 5, 11, 3, 4, 9, 4, 1, 3, 1, 4],
  [2, 5, 1, 2, 8, 5, 2, 11, 8, 4, 5, 8],
  [0, 4, 11, 0, 11, 3, 4, 5, 11, 2, 11, 1, 5, 1, 11],
  [0, 2, 5, 0, 5, 9, 2, 11, 5, 4, 5, 8, 11, 8, 5],
  [9, 4, 5, 2, 11, 3],
  [2, 5, 10, 3, 5, 2, 3, 4, 5, 3, 8, 4],
  [5, 10, 2, 5, 2, 4, 4, 2, 0],
  [3, 10, 2, 3, 5, 10, 3, 8, 5, 4, 5, 8, 0, 1, 9],
  [5, 10, 2, 5, 2, 4, 1, 9, 2, 9, 4, 2],
  [8, 4, 5, 8, 5, 3, 3, 5, 1],
  [0, 4, 5, 1, 0, 5],
  [8, 4, 5, 8, 5, 3, 9, 0, 5, 0, 3, 5],
  [9, 4, 5],
  [4, 11, 7, 4, 9, 11, 9, 10, 11],
  [0, 8, 3, 4, 9, 7, 9, 11, 7, 9, 10, 11],
  [1, 10, 11, 1, 11, 4, 1, 4, 0, 7, 4, 11],
  [3, 1, 4, 3, 4, 8, 1, 10, 4, 7, 4, 11, 10, 11, 4],
  [4, 11, 7, 9, 11, 4, 9, 2, 11, 9, 1, 2],
  [9, 7, 4, 9, 11, 7, 9, 1, 11, 2, 11, 1, 0, 8, 3],
  [11, 7, 4, 11, 4, 2, 2, 4, 0],
  [11, 7, 4, 11, 4, 2, 8, 3, 4, 3, 2, 4],
  [2, 9, 10, 2, 7, 9, 2, 3, 7, 7, 4, 9],
  [9, 10, 7, 9, 7, 4, 10, 2, 7, 8, 7, 0, 2, 0, 7],
  [3, 7, 10, 3, 10, 2, 7, 4, 10, 1, 10, 0, 4, 0, 10],
  [1, 10, 2, 8, 7, 4],
  [4, 9, 1, 4, 1, 7, 7, 1, 3],
  [4, 9, 1, 4, 1, 7, 0, 8, 1, 8, 7, 1],
  [4, 0, 3, 7, 4, 3],
  [4, 8, 7],
  [9, 10, 8, 10, 11, 8],
  [3, 0, 9, 3, 9, 11, 11, 9, 10],
  [0, 1, 10, 0, 10, 8, 8, 10, 11],
  [3, 1, 10, 11, 3, 10],
  [1, 2, 11, 1, 11, 9, 9, 11, 8],
  [3, 0, 9, 3, 9, 11, 1, 2, 9, 2, 11, 9],
  [0, 2, 11, 8, 0, 11],
  [3, 2, 11],
  [2, 3, 8, 2, 8, 10, 10, 8, 9],
  [9, 10, 2, 0, 9, 2],
  [2, 3, 8, 2, 8, 10, 0, 1, 8, 1, 10, 8],
  [1, 10, 2],
  [1, 3, 8, 9, 1, 8],
  [0, 9, 1],
  [0, 3, 8],
  []]

/-- The edge-to-corner incidence table (constant edgeVertices). -/
def edgeVertices : List (Nat × Nat) := [(0, 1), (1, 2), (2, 3), (3, 0), (4, 5), (5, 6), (6, 7), (7, 4), (0, 4), (1, 5), (2, 6), (3, 7)]

/-- Entries of a triangle-table row that precede the -1 sentinel; these are
exactly the entries the triangle-emission loop of march consumes. -/
def sentinelEntries (row : List Int) : List Int := row.takeWhile (fun e => e ≠ -1)


/-! ## The sequential (CPU) implementation -/

/-- A 3-component vector of reals, modelling a JavaScript number triple. -/
abbrev Vec3 := ℝ × ℝ × ℝ

/-- The integers from a to b inclusive, the index sequence of a JavaScript
for loop running from a to b. -/
def intRange (a b : ℤ) : List ℤ := (List.range (b + 1 - a).toNat).map fun (k : ℕ) => a + (k : ℤ)

/-- Parameters and persisted fields of the CPUMarchingCubes class.  The
gridMin/gridMax fields are EReal because the reconstruct method stores
Infinity-valued bounds into them when the point count is zero. -/
structure CPUMC where
  gridSize : ℕ × ℕ × ℕ
  isoValue : ℝ
  splatRadius : ℝ
  gridMin : EReal × EReal × EReal
  gridMax : EReal × EReal × EReal

/-- The field defaults of the CPUMarchingCubes class. -/
noncomputable def CPUMC.default : CPUMC :=
  { gridSize := (64, 64, 64), isoValue := 0.5, splatRadius := 1.5,
    gridMin := (((-60 : ℝ) : EReal), ((-60 : ℝ) : EReal), ((-60 : ℝ) : EReal)),
    gridMax := (((60 : ℝ) : EReal), ((60 : ℝ) : EReal), ((60 : ℝ) : EReal)) }

/-- The five per-voxel accumulator arrays of buildDensityField (density,
weights, colorR, colorG, colorB), modelled as total functions that are zero
outside the written range. -/
structure SplatState where
  density : ℕ → ℝ
  weights : ℕ → ℝ
  colorR : ℕ → ℝ
  colorG : ℕ → ℝ
  colorB : ℕ → ℝ

/-- Freshly allocated Float32Array accumulators are zero-filled. -/
def initSplatState : SplatState :=
  ⟨fun _ => 0, fun _ => 0, fun _ => 0, fun _ => 0, fun _ => 0⟩

/-- Row-major voxel index of the CPU variant: idx = ix·gy·gz + iy·gz + iz. -/
def voxelIdx (N : ℕ × ℕ × ℕ) (ix iy iz : ℕ) : ℕ :=
  ix * N.2.1 * N.2.2 + iy * N.2.2 + iz

/-- Grid-space position of point i: (p - gridMin) / gridRange * gridSize,
componentwise (the nx, ny, nz of buildDensityField). -/
noncomputable def gridPos (N : ℕ × ℕ × ℕ) (gmin gmax : Vec3) (positions : ℕ → ℝ)
    (i : ℕ) : Vec3 :=
  (((positions (i * 3) - gmin.1) / (gmax.1 - gmin.1)) * N.1,
   ((positions (i * 3 + 1) - gmin.2.1) / (gmax.2.1 - gmin.2.1)) * N.2.1,
   ((positions (i * 3 + 2) - gmin.2.2) / (gmax.2.2 - gmin.2.2)) * N.2.2)

/-- The containing cell (cx, cy, cz) = floor of the grid-space position. -/
noncomputable def containingCell (n : Vec3) : ℤ × ℤ × ℤ := (⌊n.1⌋, ⌊n.2.1⌋, ⌊n.2.2⌋)

/-- Grid-space Euclidean distance from a grid-space position to the center
(ix + 0.5, iy + 0.5, iz + 0.5) of a cell. -/
noncomputable def cellDist (n : Vec3) (ix iy iz : ℕ) : ℝ :=
  Real.sqrt ((n.1 - ((ix : ℝ) + 0.5)) ^ 2 + (n.2.1 - ((iy : ℝ) + 0.5)) ^ 2 +
    (n.2.2 - ((iz : ℝ) + 0.5)) ^ 2)

/-- Body of the innermost splatting loop of buildDensityField: bounds test,
distance cutoff, Gaussian weight with sigma = splatRadius·0.5, and the
accumulator updates (color accumulators only when a colors array is given). -/
noncomputable def splatCell (N : ℕ × ℕ × ℕ) (r : ℝ) (n : Vec3) (pcolor : Option Vec3)
    (cell : ℤ × ℤ × ℤ) (st : SplatState) : SplatState :=
  if cell.1 < 0 ∨ (N.1 : ℤ) ≤ cell.1 ∨ cell.2.1 < 0 ∨ (N.2.1 : ℤ) ≤ cell.2.1 ∨
      cell.2.2 < 0 ∨ (N.2.2 : ℤ) ≤ cell.2.2 then st
  else
    let ix := cell.1.toNat
    let iy := cell.2.1.toNat
    let iz := cell.2.2.toNat
    let dist := cellDist n ix iy iz
    if r < dist then st
    else
      let sigma := r * 0.5
      let weight := Real.exp (-dist * dist / (2 * sigma * sigma))
      let idx := voxelIdx N ix iy iz
      { density := Function.update st.density idx (st.density idx + weight)
        weights := Function.update st.weights idx (st.weights idx + weight)
        colorR := match pcolor with
          | some c => Function.update st.colorR idx (st.colorR idx + c.1 * weight)
          | none => st.colorR
        colorG := match pcolor with
          | some c => Function.update st.colorG idx (st.colorG idx + c.2.1 * weight)
          | none => st.colorG
        colorB := match pcolor with
          | some c => Function.update st.colorB idx (st.colorB idx + c.2.2 * weight)
          | none => st.colorB }

/-- Splatting of one point: the cubic neighborhood loop of buildDensityField,
dx, dy, dz each ranging over [-ceil(splatRadius), ceil(splatRadius)]. -/
noncomputable def splatPoint (N : ℕ × ℕ × ℕ) (r : ℝ) (gmin gmax : Vec3)
    (positions : ℕ → ℝ) (colors : Option (ℕ → ℝ)) (i : ℕ) (st : SplatState) :
    SplatState :=
  let n := gridPos N gmin gmax positions i
  let c := containingCell n
  let pcolor : Option Vec3 := colors.map fun col => (col (i * 3), col (i * 3 + 1), col (i * 3 + 2))
  let cr : ℤ := ⌈r⌉
  (intRange (-cr) cr).foldl (fun st dx =>
    (intRange (-cr) cr).foldl (fun st dy =>
      (intRange (-cr) cr).foldl (fun st dz =>
        splatCell N r n pcolor (c.1 + dx, c.2.1 + dy, c.2.2 + dz) st) st) st) st

/-- The complete splatting phase of buildDensityField over all count points. -/
noncomputable def splatAll (N : ℕ × ℕ × ℕ) (r : ℝ) (gmin gmax : Vec3)
    (positions : ℕ → ℝ) (colors : Option (ℕ → ℝ)) (count : ℕ) : SplatState :=
  (List.range count).foldl
    (fun st i => splatPoint N r gmin gmax positions colors i st) initSplatState

/-- The density/color field handed from buildDensityField to march. -/
structure DensityField where
  density : ℕ → ℝ
  colorR : ℕ → ℝ
  colorG : ℕ → ℝ
  colorB : ℕ → ℝ

/-- buildDensityField: splat all points, then normalize the colors cellwise
(color / weight when the accumulated weight is positive, neutral gray 0.5
otherwise).  The density array is returned as accumulated, unnormalized. -/
noncomputable def buildDensityField (N : ℕ × ℕ × ℕ) (r : ℝ) (gmin gmax : Vec3)
    (positions : ℕ → ℝ) (colors : Option (ℕ → ℝ)) (count : ℕ) : DensityField :=
  let st := splatAll N r gmin gmax positions colors count
  let gridCount := N.1 * N.2.1 * N.2.2
  { density := st.density
    colorR := fun i => if i < gridCount then
        (if 0 < st.weights i then st.colorR i / st.weights i else 0.5) else st.colorR i
    colorG := fun i => if i < gridCount then
        (if 0 < st.weights i then st.colorG i / st.weights i else 0.5) else st.colorG i
    colorB := fun i => if i < gridCount then
        (if 0 < st.weights i then st.colorB i / st.weights i else 0.5) else st.colorB i }

/-- CPUMarchingCubes.interpolateVertex: snap to a corner when the iso value
is within 1e-5 of it, snap to the first corner when the corner densities are
within 1e-5 of each other, otherwise interpolate linearly. -/
noncomputable def interpolateVertex (p1 p2 : Vec3) (v1 v2 iso : ℝ) : Vec3 :=
  if |iso - v1| < 0.00001 then p1
  else if |iso - v2| < 0.00001 then p2
  else if |v1 - v2| < 0.00001 then p1
  else
    let t := (iso - v1) / (v2 - v1)
    (p1.1 + t * (p2.1 - p1.1), p1.2.1 + t * (p2.2.1 - p1.2.1),
     p1.2.2 + t * (p2.2.2 - p1.2.2))

/-- CPUMarchingCubes.interpolateColor, same guard structure as
interpolateVertex. -/
noncomputable def interpolateColor (c1 c2 : Vec3) (v1 v2 iso : ℝ) : Vec3 :=
  if |iso - v1| < 0.00001 then c1
  else if |iso - v2| < 0.00001 then c2
  else if |v1 - v2| < 0.00001 then c1
  else
    let t := (iso - v1) / (v2 - v1)
    (c1.1 + t * (c2.1 - c1.1), c1.2.1 + t * (c2.2.1 - c1.2.1),
     c1.2.2 + t * (c2.2.2 - c1.2.2))

/-- The result record of the sequential implementation (positions, normals
and colors model the flat Float32Array contents). -/
structure MarchingCubesResult where
  positions : List ℝ
  normals : List ℝ
  colors : List ℝ
  triangleCount : ℕ

/-- The growable vertices/normals/colors output arrays of march. -/
structure MarchAcc where
  vertices : List ℝ
  normals : List ℝ
  colors : List ℝ

/-- march's getDensity helper: zero outside the grid.  The source also
tests x < 0, which cannot fire for the natural loop indices of march. -/
noncomputable def getDensity (N : ℕ × ℕ × ℕ) (f : DensityField) (x y z : ℕ) : ℝ :=
  if N.1 ≤ x ∨ N.2.1 ≤ y ∨ N.2.2 ≤ z then 0 else f.density (voxelIdx N x y z)

/-- march's getColor helper: neutral gray outside the grid. -/
noncomputable def getColor (N : ℕ × ℕ × ℕ) (f : DensityField) (x y z : ℕ) : Vec3 :=
  if N.1 ≤ x ∨ N.2.1 ≤ y ∨ N.2.2 ≤ z then (0.5, 0.5, 0.5)
  else (f.colorR (voxelIdx N x y z), f.colorG (voxelIdx N x y z), f.colorB (voxelIdx N x y z))

/-- Cube classification of the sequential march: bit i is set exactly when
corner i's density is strictly greater than the iso value (the eight
if (cubeValues[i] > iso) cubeIndex |= 2^i statements). -/
noncomputable def cpuCubeIndex (cubeValues : ℕ → ℝ) (iso : ℝ) : ℕ :=
  let c0 : ℕ := 0
  let c1 := if cubeValues 0 > iso then c0 ||| 1 else c0
  let c2 := if cubeValues 1 > iso then c1 ||| 2 else c1
  let c3 := if cubeValues 2 > iso then c2 ||| 4 else c2
  let c4 := if cubeValues 3 > iso then c3 ||| 8 else c3
  let c5 := if cubeValues 4 > iso then c4 ||| 16 else c4
  let c6 := if cubeValues 5 > iso then c5 ||| 32 else c5
  let c7 := if cubeValues 6 > iso then c6 ||| 64 else c6
  if cubeValues 7 > iso then c7 ||| 128 else c7

/-- Triangle triplets consumed by the emission loop of march: triplets are
read until the -1 sentinel (or the end of the row) is reached. -/
def triangleTriples : List Int → List (Int × Int × Int)
  | e0 :: e1 :: e2 :: rest => if e0 = -1 then [] else (e0, e1, e2) :: triangleTriples rest
  | _ => []

/-- Lookup of an interpolated edge vertex by a (possibly negative)
triangle-table entry; a JavaScript out-of-range access yields undefined,
modelled as none. -/
def lookupEdge (l : ℕ → Option Vec3) (e : Int) : Option Vec3 :=
  if e < 0 then none else l e.toNat

/-- Emission of one triangle in march: skip when any looked-up vertex or
color is undefined, skip degenerate triangles whose cross product is shorter
than 1e-4, otherwise normalize the face normal and append nine floats to
each of the three output arrays. -/
noncomputable def emitTriangle (vertList colorList : ℕ → Option Vec3)
    (tri : Int × Int × Int) (acc : MarchAcc) : MarchAcc :=
  match lookupEdge vertList tri.1, lookupEdge vertList tri.2.1, lookupEdge vertList tri.2.2,
        lookupEdge colorList tri.1, lookupEdge colorList tri.2.1, lookupEdge colorList tri.2.2 with
  | some v0, some v1, some v2, some c0, some c1, some c2 =>
    let edge1 : Vec3 := (v1.1 - v0.1, v1.2.1 - v0.2.1, v1.2.2 - v0.2.2)
    let edge2 : Vec3 := (v2.1 - v0.1, v2.2.1 - v0.2.1, v2.2.2 - v0.2.2)
    let normal : Vec3 := (edge1.2.1 * edge2.2.2 - edge1.2.2 * edge2.2.1,
                          edge1.2.2 * edge2.1 - edge1.1 * edge2.2.2,
                          edge1.1 * edge2.2.1 - edge1.2.1 * edge2.1)
    let len := Real.sqrt (normal.1 ^ 2 + normal.2.1 ^ 2 + normal.2.2 ^ 2)
    if len < 0.0001 then acc
    else
      { vertices := acc.vertices ++ [v0.1, v0.2.1, v0.2.2, v1.1, v1.2.1, v1.2.2,
          v2.1, v2.2.1, v2.2.2]
        normals := acc.normals ++ [normal.1 / len, normal.2.1 / len, normal.2.2 / len,
          normal.1 / len, normal.2.1 / len, normal.2.2 / len,
          normal.1 / len, normal.2.1 / len, normal.2.2 / len]
        colors := acc.colors ++ [c0.1, c0.2.1, c0.2.2, c1.1, c1.2.1, c1.2.2,
          c2.1, c2.2.1, c2.2.2] }
  | _, _, _, _, _, _ => acc

/-- Processing of one cell (ix, iy, iz) of march: read the eight corner
densities and colors, classify, exit early when the edge table entry is
zero, interpolate the active edges and run the triangle emission loop. -/
noncomputable def marchCell (N : ℕ × ℕ × ℕ) (iso : ℝ) (gmin gmax : Vec3)
    (f : DensityField) (ix iy iz : ℕ) (acc : MarchAcc) : MarchAcc :=
  let cubeValues : ℕ → ℝ := fun k =>
    match k with
    | 0 => getDensity N f ix iy iz
    | 1 => getDensity N f (ix + 1) iy iz
    | 2 => getDensity N f (ix + 1) (iy + 1) iz
    | 3 => getDensity N f ix (iy + 1) iz
    | 4 => getDensity N f ix iy (iz + 1)
    | 5 => getDensity N f (ix + 1) iy (iz + 1)
    | 6 => getDensity N f (ix + 1) (iy + 1) (iz + 1)
    | 7 => getDensity N f ix (iy + 1) (iz + 1)
    | _ => 0
  let cubeColors : ℕ → Vec3 := fun k =>
    match k with
    | 0 => getColor N f ix iy iz
    | 1 => getColor N f (ix + 1) iy iz
    | 2 => getColor N f (ix + 1) (iy + 1) iz
    | 3 => getColor N f ix (iy + 1) iz
    | 4 => getColor N f ix iy (iz + 1)
    | 5 => getColor N f (ix + 1) iy (iz + 1)
    | 6 => getColor N f (ix + 1) (iy + 1) (iz + 1)
    | 7 => getColor N f ix (iy + 1) (iz + 1)
    | _ => (0, 0, 0)
  let cubeIndex := cpuCubeIndex cubeValues iso
  if edgeTable.getD cubeIndex 0 = 0 then acc
  else
    let cellSize : Vec3 := ((gmax.1 - gmin.1) / N.1, (gmax.2.1 - gmin.2.1) / N.2.1,
      (gmax.2.2 - gmin.2.2) / N.2.2)
    let basePos : Vec3 := (gmin.1 + ix * cellSize.1, gmin.2.1 + iy * cellSize.2.1,
      gmin.2.2 + iz * cellSize.2.2)
    let cubePos : ℕ → Vec3 := fun k =>
      match k with
      | 0 => basePos
      | 1 => (basePos.1 + cellSize.1, basePos.2.1, basePos.2.2)
      | 2 => (basePos.1 + cellSize.1, basePos.2.1 + cellSize.2.1, basePos.2.2)
      | 3 => (basePos.1, basePos.2.1 + cellSize.2.1, basePos.2.2)
      | 4 => (basePos.1, basePos.2.1, basePos.2.2 + cellSize.2.2)
      | 5 => (basePos.1 + cellSize.1, basePos.2.1, basePos.2.2 + cellSize.2.2)
      | 6 => (basePos.1 + cellSize.1, basePos.2.1 + cellSize.2.1, basePos.2.2 + cellSize.2.2)
      | 7 => (basePos.1, basePos.2.1 + cellSize.2.1, basePos.2.2 + cellSize.2.2)
      | _ => (0, 0, 0)
    let edges := edgeTable.getD cubeIndex 0
    let vertList : ℕ → Option Vec3 := fun e =>
      if e < 12 ∧ Nat.testBit edges e then
        some (interpolateVertex (cubePos (edgeVertices.getD e (0, 0)).1)
          (cubePos (edgeVertices.getD e (0, 0)).2)
          (cubeValues (edgeVertices.getD e (0, 0)).1)
          (cubeValues (edgeVertices.getD e (0, 0)).2) iso)
      else none
    let colorList : ℕ → Option Vec3 := fun e =>
      if e < 12 ∧ Nat.testBit edges e then
        some (interpolateColor (cubeColors (edgeVertices.getD e (0, 0)).1)
          (cubeColors (edgeVertices.getD e (0, 0)).2)
          (cubeValues (edgeVertices.getD e (0, 0)).1)
          (cubeValues (edgeVertices.getD e (0, 0)).2) iso)
      else none
    (triangleTriples (triTable.getD cubeIndex [])).foldl
      (fun acc tri => emitTriangle vertList colorList tri acc) acc

/-- CPUMarchingCubes.march: walk all cells (last row/column/layer excluded)
and package the output arrays; triangleCount = vertices.length / 9. -/
noncomputable def march (N : ℕ × ℕ × ℕ) (iso : ℝ) (gmin gmax : Vec3)
    (f : DensityField) : MarchingCubesResult :=
  let acc := (List.range (N.1 - 1)).foldl (fun acc ix =>
    (List.range (N.2.1 - 1)).foldl (fun acc iy =>
      (List.range (N.2.2 - 1)).foldl (fun acc iz =>
        marchCell N iso gmin gmax f ix iy iz acc) acc) acc)
    { vertices := [], normals := [], colors := [] }
  { positions := acc.vertices, normals := acc.normals, colors := acc.colors,
    triangleCount := acc.vertices.length / 9 }

/-- CPUMarchingCubes.reconstruct: compute the bounding box of the cloud
(minima start at Infinity and maxima at -Infinity, modelled in EReal), pad
it by 2·splatRadius, store it into the gridMin/gridMax fields, then build
the density field and march.  The stages receive the bounds through
EReal.toReal; for count ≥ 1 the bounds are finite and the conversion is
exact, and for count = 0 the stages provably ignore the bounds. -/
noncomputable def cpuReconstruct (self : CPUMC) (positions : ℕ → ℝ)
    (colors : Option (ℕ → ℝ)) (count : ℕ) : MarchingCubesResult × CPUMC :=
  let bb := (List.range count).foldl
    (fun (b : (EReal × EReal × EReal) × (EReal × EReal × EReal)) i =>
      let x : EReal := ((positions (i * 3) : ℝ) : EReal)
      let y : EReal := ((positions (i * 3 + 1) : ℝ) : EReal)
      let z : EReal := ((positions (i * 3 + 2) : ℝ) : EReal)
      ((min b.1.1 x, min b.1.2.1 y, min b.1.2.2 z),
       (max b.2.1 x, max b.2.2.1 y, max b.2.2.2 z)))
    ((⊤, ⊤, ⊤), (⊥, ⊥, ⊥))
  let padding : ℝ := self.splatRadius * 2
  let newMin : EReal × EReal × EReal :=
    (bb.1.1 - (padding : ℝ), bb.1.2.1 - (padding : ℝ), bb.1.2.2 - (padding : ℝ))
  let newMax : EReal × EReal × EReal :=
    (bb.2.1 + (padding : ℝ), bb.2.2.1 + (padding : ℝ), bb.2.2.2 + (padding : ℝ))
  let gmin : Vec3 := (newMin.1.toReal, newMin.2.1.toReal, newMin.2.2.toReal)
  let gmax : Vec3 := (newMax.1.toReal, newMax.2.1.toReal, newMax.2.2.toReal)
  let f := buildDensityField self.gridSize self.splatRadius gmin gmax positions colors count
  (march self.gridSize self.isoValue gmin gmax f,
   { self with gridMin := newMin, gridMax := newMax })

/-! ## The GPU (WGSL compute pipeline) implementation -/

/-- WGSL u32(x) conversion from f32: truncate toward zero, saturating at 0
and 2^32 - 1 (Nat.floor already sends negative reals to 0). -/
noncomputable def u32val (x : ℝ) : ℕ := min ⌊x⌋₊ (2 ^ 32 - 1)

/-- Column-major voxel index of the GPU variant:
idx = x + y·gridSize.x + z·gridSize.x·gridSize.y. -/
def gpuVoxelIndex (N : ℕ × ℕ × ℕ) (x y z : ℕ) : ℕ :=
  x + y * N.1 + z * N.1 * N.2.1

/-- The four per-voxel atomic u32 accumulators of the splat shader. -/
structure GPUVoxelState where
  voxelDensity : ℕ → ℕ
  voxelColorsR : ℕ → ℕ
  voxelColorsG : ℕ → ℕ
  voxelColorsB : ℕ → ℕ

/-- The clear pass stores 0 into every accumulator. -/
def gpuClearState : GPUVoxelState := ⟨fun _ => 0, fun _ => 0, fun _ => 0, fun _ => 0⟩

/-- The Gaussian weight of the splat shader,
exp(-0.5 · (dist/(radius·0.5))²), with dist in world space. -/
noncomputable def gpuSplatWeight (dist radius : ℝ) : ℝ :=
  Real.exp (-0.5 * (dist / (radius * 0.5)) * (dist / (radius * 0.5)))

/-- The fixed-point quantization u32(weight · 1000.0) of the splat shader. -/
noncomputable def gpuQuantizedWeight (dist radius : ℝ) : ℕ :=
  u32val (gpuSplatWeight dist radius * 1000)

/-- World-space cell size of the splat shader: gridExtent / gridSize. -/
noncomputable def gpuCellSize (N : ℕ × ℕ × ℕ) (gmin gmax : Vec3) : Vec3 :=
  ((gmax.1 - gmin.1) / N.1, (gmax.2.1 - gmin.2.1) / N.2.1, (gmax.2.2 - gmin.2.2) / N.2.2)

/-- The world-space distance computed by the splat shader:
cellCenter = (cell + 0.5)·cellSize + gridMin and dist = length(pos - cellCenter). -/
noncomputable def gpuCellDist (N : ℕ × ℕ × ℕ) (gmin gmax : Vec3) (pos : Vec3)
    (cell : ℤ × ℤ × ℤ) : ℝ :=
  let cs := gpuCellSize N gmin gmax
  Real.sqrt ((pos.1 - (((cell.1 : ℝ) + 0.5) * cs.1 + gmin.1)) ^ 2 +
    (pos.2.1 - (((cell.2.1 : ℝ) + 0.5) * cs.2.1 + gmin.2.1)) ^ 2 +
    (pos.2.2 - (((cell.2.2 : ℝ) + 0.5) * cs.2.2 + gmin.2.2)) ^ 2)

/-- Body of the splat shader's neighborhood loop: bounds test, world-space
distance cutoff against splatRadius, quantization (a zero quantized weight
is skipped), then atomic u32 additions (wrapping mod 2^32). -/
noncomputable def gpuSplatCell (N : ℕ × ℕ × ℕ) (gmin gmax : Vec3) (radius : ℝ)
    (pos color : Vec3) (cell : ℤ × ℤ × ℤ) (st : GPUVoxelState) : GPUVoxelState :=
  if cell.1 < 0 ∨ (N.1 : ℤ) ≤ cell.1 ∨ cell.2.1 < 0 ∨ (N.2.1 : ℤ) ≤ cell.2.1 ∨
      cell.2.2 < 0 ∨ (N.2.2 : ℤ) ≤ cell.2.2 then st
  else
    let dist := gpuCellDist N gmin gmax pos cell
    if radius < dist then st
    else
      let quantizedWeight := gpuQuantizedWeight dist radius
      if quantizedWeight = 0 then st
      else
        let idx := gpuVoxelIndex N cell.1.toNat cell.2.1.toNat cell.2.2.toNat
        { voxelDensity := Function.update st.voxelDensity idx
            ((st.voxelDensity idx + quantizedWeight) % 2 ^ 32)
          voxelColorsR := Function.update st.voxelColorsR idx
            ((st.voxelColorsR idx + u32val (color.1 * quantizedWeight)) % 2 ^ 32)
          voxelColorsG := Function.update st.voxelColorsG idx
            ((st.voxelColorsG idx + u32val (color.2.1 * quantizedWeight)) % 2 ^ 32)
          voxelColorsB := Function.update st.voxelColorsB idx
            ((st.voxelColorsB idx + u32val (color.2.2 * quantizedWeight)) % 2 ^ 32) }

/-- One invocation of the splat shader (one point): compute the grid-space
position, the containing cell, the neighborhood radius in cells
ceil(radius / min cellSize), and loop dz, dy, dx over the cubic
neighborhood. -/
noncomputable def gpuSplatPoint (N : ℕ × ℕ × ℕ) (gmin gmax : Vec3) (radius : ℝ)
    (pos color : Vec3) (st : GPUVoxelState) : GPUVoxelState :=
  let cs := gpuCellSize N gmin gmax
  let gridPos : Vec3 := ((pos.1 - gmin.1) / (gmax.1 - gmin.1) * N.1,
    (pos.2.1 - gmin.2.1) / (gmax.2.1 - gmin.2.1) * N.2.1,
    (pos.2.2 - gmin.2.2) / (gmax.2.2 - gmin.2.2) * N.2.2)
  let radiusCells : ℤ := ⌈radius / min cs.1 (min cs.2.1 cs.2.2)⌉
  let centerCell : ℤ × ℤ × ℤ := (⌊gridPos.1⌋, ⌊gridPos.2.1⌋, ⌊gridPos.2.2⌋)
  (intRange (-radiusCells) radiusCells).foldl (fun st dz =>
    (intRange (-radiusCells) radiusCells).foldl (fun st dy =>
      (intRange (-radiusCells) radiusCells).foldl (fun st dx =>
        gpuSplatCell N gmin gmax radius pos color
          (centerCell.1 + dx, centerCell.2.1 + dy, centerCell.2.2 + dz) st) st) st) st

/-- The whole splat pass, sequentialized over the points (the atomic
accumulation makes the parallel order irrelevant for the set of claims
settled here), starting from the cleared accumulators. -/
noncomputable def gpuSplatAll (N : ℕ × ℕ × ℕ) (gmin gmax : Vec3) (radius : ℝ)
    (points colors : ℕ → Vec3) (count : ℕ) : GPUVoxelState :=
  (List.range count).foldl
    (fun st i => gpuSplatPoint N gmin gmax radius (points i) (colors i) st) gpuClearState

/-- The normalize shader's density output for one voxel:
1 - exp(-(raw/1000)·0.5) applied to the quantized raw accumulator. -/
noncomputable def normalizeDensity (raw : ℕ) : ℝ :=
  let rawDensity := (raw : ℝ) / 1000
  1 - Real.exp (-rawDensity * 0.5)

/-- The normalize shader's color output for one voxel: the accumulated
quantized color divided by rawDensity·1000 when rawDensity exceeds 0.001,
neutral gray otherwise. -/
noncomputable def normalizeColor (raw cr cg cb : ℕ) : Vec3 :=
  let rawDensity := (raw : ℝ) / 1000
  if rawDensity > 0.001 then
    ((cr : ℝ) / rawDensity / 1000, (cg : ℝ) / rawDensity / 1000, (cb : ℝ) / rawDensity / 1000)
  else (0.5, 0.5, 0.5)

/-- Cube classification of the marching-cubes shader: bit i is set exactly
when corner i's density is strictly less than the iso value. -/
noncomputable def gpuCubeIndex (cornerDensity : ℕ → ℝ) (iso : ℝ) : ℕ :=
  (List.range 8).foldl
    (fun ci i => if cornerDensity i < iso then ci ||| (1 <<< i) else ci) 0

/-- The marching-cubes shader's worldPos: mix(gridMin, gridMax, t) with
t = (x,y,z) / (gridSize - 1), componentwise. -/
noncomputable def gpuWorldPos (N : ℕ × ℕ × ℕ) (gmin gmax : Vec3) (x y z : ℕ) : Vec3 :=
  let tx := (x : ℝ) / ((N.1 : ℝ) - 1)
  let ty := (y : ℝ) / ((N.2.1 : ℝ) - 1)
  let tz := (z : ℝ) / ((N.2.2 : ℝ) - 1)
  (gmin.1 * (1 - tx) + gmax.1 * tx, gmin.2.1 * (1 - ty) + gmax.2.1 * ty,
   gmin.2.2 * (1 - tz) + gmax.2.2 * tz)

/-- The marching-cubes shader's interpolateVertex, identical guard structure
to the sequential one, with mix(p1, p2, t) = p1·(1-t) + p2·t. -/
noncomputable def gpuInterpolateVertex (p1 p2 : Vec3) (v1 v2 iso : ℝ) : Vec3 :=
  if |iso - v1| < 0.00001 then p1
  else if |iso - v2| < 0.00001 then p2
  else if |v1 - v2| < 0.00001 then p1
  else
    let t := (iso - v1) / (v2 - v1)
    (p1.1 * (1 - t) + p2.1 * t, p1.2.1 * (1 - t) + p2.2.1 * t, p1.2.2 * (1 - t) + p2.2.2 * t)

/-- The marching-cubes shader's interpolateColor (note: only the
coincident-corner guard, unlike the vertex version). -/
noncomputable def gpuInterpolateColor (c1 c2 : Vec3) (v1 v2 iso : ℝ) : Vec3 :=
  if |v1 - v2| < 0.00001 then c1
  else
    let t := (iso - v1) / (v2 - v1)
    (c1.1 * (1 - t) + c2.1 * t, c1.2.1 * (1 - t) + c2.2.1 * t, c1.2.2 * (1 - t) + c2.2.2 * t)

/-- Modelled from the spec: the EDGE_TABLE constant bound to the
marching-cubes shader comes from marchingCubesTables.ts, which is not under
src/; the spec fixes the lookup tables as the classical 256-entry tables,
"loaded once, shared read-only across all reconstructions and both
implementations", so the GPU edge table is taken equal to the sequential
one. -/
def gpuEdgeTable : List Nat := edgeTable

/-- Modelled from the spec: the TRI_TABLE constant (same missing
marchingCubesTables.ts) is the classical flat 256×16 table, i.e. the
sequential rows padded with the -1 sentinel to 16 entries. -/
def gpuTriTableRow (ci : ℕ) : List Int :=
  let row := triTable.getD ci []
  row ++ List.replicate (16 - row.length) (-1)

/-- Number of triangles one marching-cubes shader invocation (cell x,y,z)
adds to the atomic counter: zero on the guard or a zero edge-table entry,
otherwise the number of non-degenerate triangles of the cell's
triangulation (unwritten vertList slots read as the zero vector, as WGSL
zero-initializes function-scope arrays). -/
noncomputable def gpuMarchCellTriangles (N : ℕ × ℕ × ℕ) (iso : ℝ) (gmin gmax : Vec3)
    (density : ℕ → ℝ) (voxelColors : ℕ → Vec3) (x y z : ℕ) : ℕ :=
  if N.1 - 1 ≤ x ∨ N.2.1 - 1 ≤ y ∨ N.2.2 - 1 ≤ z then 0
  else
    let cornerDensity : ℕ → ℝ := fun k =>
      match k with
      | 0 => density (gpuVoxelIndex N x y z)
      | 1 => density (gpuVoxelIndex N (x + 1) y z)
      | 2 => density (gpuVoxelIndex N (x + 1) (y + 1) z)
      | 3 => density (gpuVoxelIndex N x (y + 1) z)
      | 4 => density (gpuVoxelIndex N x y (z + 1))
      | 5 => density (gpuVoxelIndex N (x + 1) y (z + 1))
      | 6 => density (gpuVoxelIndex N (x + 1) (y + 1) (z + 1))
      | 7 => density (gpuVoxelIndex N x (y + 1) (z + 1))
      | _ => 0
    let cubeIndex := gpuCubeIndex cornerDensity iso
    if gpuEdgeTable.getD cubeIndex 0 = 0 then 0
    else
      let cornerPos : ℕ → Vec3 := fun k =>
        match k with
        | 0 => gpuWorldPos N gmin gmax x y z
        | 1 => gpuWorldPos N gmin gmax (x + 1) y z
        | 2 => gpuWorldPos N gmin gmax (x + 1) (y + 1) z
        | 3 => gpuWorldPos N gmin gmax x (y + 1) z
        | 4 => gpuWorldPos N gmin gmax x y (z + 1)
        | 5 => gpuWorldPos N gmin gmax (x + 1) y (z + 1)
        | 6 => gpuWorldPos N gmin gmax (x + 1) (y + 1) (z + 1)
        | 7 => gpuWorldPos N gmin gmax x (y + 1) (z + 1)
        | _ => (0, 0, 0)
      let edges := gpuEdgeTable.getD cubeIndex 0
      let vertList : ℕ → Vec3 := fun e =>
        if e < 12 ∧ Nat.testBit edges e then
          gpuInterpolateVertex (cornerPos (edgeVertices.getD e (0, 0)).1)
            (cornerPos (edgeVertices.getD e (0, 0)).2)
            (cornerDensity (edgeVertices.getD e (0, 0)).1)
            (cornerDensity (edgeVertices.getD e (0, 0)).2) iso
        else (0, 0, 0)
      (triangleTriples (gpuTriTableRow cubeIndex)).foldl (fun c tri =>
        let v0 := vertList tri.1.toNat
        let v1 := vertList tri.2.1.toNat
        let v2 := vertList tri.2.2.toNat
        let e1 : Vec3 := (v1.1 - v0.1, v1.2.1 - v0.2.1, v1.2.2 - v0.2.2)
        let e2 : Vec3 := (v2.1 - v0.1, v2.2.1 - v0.2.1, v2.2.2 - v0.2.2)
        let fn : Vec3 := (e1.2.1 * e2.2.2 - e1.2.2 * e2.2.1,
          e1.2.2 * e2.1 - e1.1 * e2.2.2, e1.1 * e2.2.1 - e1.2.1 * e2.1)
        if Real.sqrt (fn.1 ^ 2 + fn.2.1 ^ 2 + fn.2.2 ^ 2) < 0.0001 then c else c + 1) 0

/-- The final value of the atomic triangle counter: the sum of every cell
invocation's increments over the whole dispatch grid. -/
noncomputable def gpuMarchCounter (N : ℕ × ℕ × ℕ) (iso : ℝ) (gmin gmax : Vec3)
    (density : ℕ → ℝ) (voxelColors : ℕ → Vec3) : ℕ :=
  (List.range N.1).foldl (fun c x =>
    (List.range N.2.1).foldl (fun c y =>
      (List.range N.2.2).foldl (fun c z =>
        c + gpuMarchCellTriangles N iso gmin gmax density voxelColors x y z) c) c) 0

/-! ## GPU orchestrator (MeshReconstructor) buffer arithmetic -/

/-- setPointCloud per-point color upload: the colors array when present,
the neutral gray (0.5, 0.5, 0.5) with alpha 1 otherwise. -/
noncomputable def gpuColorData (colors : Option (ℕ → ℝ)) (i : ℕ) : Vec3 × ℝ :=
  match colors with
  | some c => ((c (i * 3), c (i * 3 + 1), c (i * 3 + 2)), 1)
  | none => ((0.5, 0.5, 0.5), 1)

/-- setPointCloud: surfaceVoxels = 6·gridRes²·2. -/
def surfaceVoxels (gridRes : ℕ) : ℕ := 6 * gridRes * gridRes * 2

/-- setPointCloud: maxTriangles = min(surfaceVoxels·5, gridCount). -/
def maxTriangles (gridRes : ℕ) : ℕ :=
  min (surfaceVoxels gridRes * 5) (gridRes * gridRes * gridRes)

/-- setPointCloud: requested vertex buffer byte size, 48 bytes per vertex. -/
def vertexBufferSize (gridRes : ℕ) : ℕ := maxTriangles gridRes * 3 * 48

/-- setPointCloud: the allocated byte size, clamped to
maxAllowed = min(device maxBufferSize, 512 MiB), here a parameter M. -/
def actualBufferSize (gridRes M : ℕ) : ℕ := min (vertexBufferSize gridRes) M

/-- setPointCloud: maxTriangleCount = floor(actualBufferSize / 48 / 3),
the triangle capacity of the allocated vertex buffer. -/
def maxTriangleCount (gridRes M : ℕ) : ℕ := actualBufferSize gridRes M / 48 / 3

/-- arrayLength(&vertices) seen by the shader: one Vertex is 48 bytes. -/
def vertexArrayLength (gridRes M : ℕ) : ℕ := actualBufferSize gridRes M / 48

/-- The shader's capacity guard for the triangle slot reserved at counter
value t: vertex data is written only when baseIdx + 2 < arrayLength. -/
def gpuWritesTriangle (t arrayLen : ℕ) : Prop := t * 3 + 2 < arrayLen

instance (t L : ℕ) : Decidable (gpuWritesTriangle t L) := by
  unfold gpuWritesTriangle; infer_instance

/-- reconstruct's readback clamp:
triangleCount = min(counter, maxTriangleCount || counter). -/
def reportedTriangleCount (counter cap : ℕ) : ℕ :=
  min counter (if cap = 0 then counter else cap)

/-- reconstruct's result packaging: the empty result when the clamped
counter is zero, otherwise min(triangleCount, maxTriangleCount || ...)
triangles, each vertex contributing 3 of its 12 readback floats to each of
the three output arrays. -/
noncomputable def gpuPackageResult (counter cap : ℕ) (vertexData : ℕ → ℝ) :
    MarchingCubesResult :=
  let triangleCount := reportedTriangleCount counter cap
  if triangleCount = 0 then
    { positions := [], normals := [], colors := [], triangleCount := 0 }
  else
    let actualTriangles := min triangleCount (if cap = 0 then triangleCount else cap)
    let vertexCount := actualTriangles * 3
    { positions := (List.range vertexCount).flatMap fun i =>
        [vertexData (i * 12), vertexData (i * 12 + 1), vertexData (i * 12 + 2)]
      normals := (List.range vertexCount).flatMap fun i =>
        [vertexData (i * 12 + 4), vertexData (i * 12 + 5), vertexData (i * 12 + 6)]
      colors := (List.range vertexCount).flatMap fun i =>
        [vertexData (i * 12 + 8), vertexData (i * 12 + 9), vertexData (i * 12 + 10)]
      triangleCount := triangleCount }

/-! ## Splatting lemmas -/

/-- In-bounds predicate matched by the bounds test of the splatting loops. -/
def cellInBounds (N : ℕ × ℕ × ℕ) (c : ℤ × ℤ × ℤ) : Prop :=
  0 ≤ c.1 ∧ c.1 < (N.1 : ℤ) ∧ 0 ≤ c.2.1 ∧ c.2.1 < (N.2.1 : ℤ) ∧
    0 ≤ c.2.2 ∧ c.2.2 < (N.2.2 : ℤ)

instance (N : ℕ × ℕ × ℕ) (c : ℤ × ℤ × ℤ) : Decidable (cellInBounds N c) := by
  unfold cellInBounds; infer_instance

/-- The CPU voxel index of an integer cell. -/
def cellIdx (N : ℕ × ℕ × ℕ) (c : ℤ × ℤ × ℤ) : ℕ :=
  voxelIdx N c.1.toNat c.2.1.toNat c.2.2.toNat

lemma encode_pair_inj {a1 b1 a2 b2 g : ℕ} (h1 : b1 < g) (h2 : b2 < g)
    (h : a1 * g + b1 = a2 * g + b2) : a1 = a2 ∧ b1 = b2 := by
  have hg : 0 < g := Nat.lt_of_le_of_lt (Nat.zero_le _) h1
  have e1 : (a1 * g + b1) % g = b1 := by
    rw [Nat.add_comm, Nat.add_mul_mod_self_right, Nat.mod_eq_of_lt h1]
  have e2 : (a2 * g + b2) % g = b2 := by
    rw [Nat.add_comm, Nat.add_mul_mod_self_right, Nat.mod_eq_of_lt h2]
  have hb : b1 = b2 := by rw [← e1, ← e2, h]
  subst hb
  exact ⟨Nat.eq_of_mul_eq_mul_right hg (Nat.add_right_cancel h), rfl⟩

lemma voxelIdx_inj {N : ℕ × ℕ × ℕ} {x1 y1 z1 x2 y2 z2 : ℕ}
    (hy1 : y1 < N.2.1) (hz1 : z1 < N.2.2) (hy2 : y2 < N.2.1) (hz2 : z2 < N.2.2)
    (h : voxelIdx N x1 y1 z1 = voxelIdx N x2 y2 z2) :
    x1 = x2 ∧ y1 = y2 ∧ z1 = z2 := by
  have e : ∀ x y z : ℕ, voxelIdx N x y z = (x * N.2.1 + y) * N.2.2 + z := by
    intro x y z; unfold voxelIdx; ring
  rw [e, e] at h
  obtain ⟨hA, hz⟩ := encode_pair_inj hz1 hz2 h
  obtain ⟨hx, hy⟩ := encode_pair_inj hy1 hy2 hA
  exact ⟨hx, hy, hz⟩

lemma cellIdx_inj {N : ℕ × ℕ × ℕ} {a b : ℤ × ℤ × ℤ}
    (ha : cellInBounds N a) (hb : cellInBounds N b) (h : cellIdx N a = cellIdx N b) :
    a = b := by
  obtain ⟨ha1, ha2, ha3, ha4, ha5, ha6⟩ := ha
  obtain ⟨hb1, hb2, hb3, hb4, hb5, hb6⟩ := hb
  obtain ⟨e1, e2, e3⟩ :=
    voxelIdx_inj (by omega) (by omega) (by omega) (by omega) h
  rcases a with ⟨a1, a2, a3⟩
  rcases b with ⟨b1, b2, b3⟩
  simp only [Prod.mk.injEq]
  simp only at e1 e2 e3 ha1 ha3 ha5 hb1 hb3 hb5
  refine ⟨by omega, by omega, by omega⟩

/-- The Gaussian weight computed inside splatCell:
exp(-d² / (2·σ²)) with σ = r·0.5. -/
noncomputable def gaussWeight (r d : ℝ) : ℝ :=
  Real.exp (-d * d / (2 * (r * 0.5) * (r * 0.5)))

/-- The density amount one point adds to one in-bounds cell: the Gaussian
weight inside the distance cutoff, zero beyond it. -/
noncomputable def cpuCellAdd (r : ℝ) (n : Vec3) (c : ℤ × ℤ × ℤ) : ℝ :=
  if r < cellDist n c.1.toNat c.2.1.toNat c.2.2.toNat then 0
  else gaussWeight r (cellDist n c.1.toNat c.2.1.toNat c.2.2.toNat)

lemma splatCell_self (N : ℕ × ℕ × ℕ) (r : ℝ) (n : Vec3) (pc : Option Vec3)
    {c : ℤ × ℤ × ℤ} (st : SplatState) (hc : cellInBounds N c) :
    (splatCell N r n pc c st).density (cellIdx N c) =
        st.density (cellIdx N c) + cpuCellAdd r n c ∧
      (splatCell N r n pc c st).weights (cellIdx N c) =
        st.weights (cellIdx N c) + cpuCellAdd r n c := by
  obtain ⟨h1, h2, h3, h4, h5, h6⟩ := hc
  rw [splatCell, if_neg (by omega)]
  by_cases hd : r < cellDist n c.1.toNat c.2.1.toNat c.2.2.toNat
  · rw [if_pos hd]
    simp [cpuCellAdd, hd]
  · rw [if_neg hd]
    unfold cpuCellAdd
    rw [if_neg hd]
    constructor <;> simp [cellIdx, gaussWeight]

lemma splatCell_other (N : ℕ × ℕ × ℕ) (r : ℝ) (n : Vec3) (pc : Option Vec3)
    {cell c : ℤ × ℤ × ℤ} (st : SplatState) (hc : cellInBounds N c) (hne : cell ≠ c) :
    (splatCell N r n pc cell st).density (cellIdx N c) = st.density (cellIdx N c) ∧
      (splatCell N r n pc cell st).weights (cellIdx N c) = st.weights (cellIdx N c) := by
  rw [splatCell]
  by_cases hb : cell.1 < 0 ∨ (N.1 : ℤ) ≤ cell.1 ∨ cell.2.1 < 0 ∨ (N.2.1 : ℤ) ≤ cell.2.1 ∨
      cell.2.2 < 0 ∨ (N.2.2 : ℤ) ≤ cell.2.2
  · rw [if_pos hb]; exact ⟨rfl, rfl⟩
  · rw [if_neg hb]
    have hcell : cellInBounds N cell := by unfold cellInBounds; omega
    have hidx : cellIdx N c ≠ voxelIdx N cell.1.toNat cell.2.1.toNat cell.2.2.toNat := by
      intro h
      exact hne (cellIdx_inj hcell hc h.symm)
    by_cases hd : r < cellDist n cell.1.toNat cell.2.1.toNat cell.2.2.toNat
    · rw [if_pos hd]; exact ⟨rfl, rfl⟩
    · rw [if_neg hd]
      constructor <;> simp [Function.update_noteq hidx]

lemma splatCell_colors_none (N : ℕ × ℕ × ℕ) (r : ℝ) (n : Vec3)
    (cell : ℤ × ℤ × ℤ) (st : SplatState) :
    (splatCell N r n none cell st).colorR = st.colorR ∧
      (splatCell N r n none cell st).colorG = st.colorG ∧
      (splatCell N r n none cell st).colorB = st.colorB := by
  rw [splatCell]
  by_cases hb : cell.1 < 0 ∨ (N.1 : ℤ) ≤ cell.1 ∨ cell.2.1 < 0 ∨ (N.2.1 : ℤ) ≤ cell.2.1 ∨
      cell.2.2 < 0 ∨ (N.2.2 : ℤ) ≤ cell.2.2
  · rw [if_pos hb]; exact ⟨rfl, rfl, rfl⟩
  · rw [if_neg hb]
    by_cases hd : r < cellDist n cell.1.toNat cell.2.1.toNat cell.2.2.toNat
    · rw [if_pos hd]; exact ⟨rfl, rfl, rfl⟩
    · rw [if_neg hd]; exact ⟨rfl, rfl, rfl⟩

lemma foldl_splatCell_contribution {N : ℕ × ℕ × ℕ} {r : ℝ} {n : Vec3}
    {pc : Option Vec3} {L : List (ℤ × ℤ × ℤ)} (hnd : L.Nodup) (st : SplatState)
    {c : ℤ × ℤ × ℤ} (hc : cellInBounds N c) :
    (L.foldl (fun st cell => splatCell N r n pc cell st) st).density (cellIdx N c) =
        st.density (cellIdx N c) + (if c ∈ L then cpuCellAdd r n c else 0) ∧
      (L.foldl (fun st cell => splatCell N r n pc cell st) st).weights (cellIdx N c) =
        st.weights (cellIdx N c) + (if c ∈ L then cpuCellAdd r n c else 0) := by
  induction L generalizing st with
  | nil => simp
  | cons hd tl ih =>
    obtain ⟨hmem, hndtl⟩ := List.nodup_cons.mp hnd
    simp only [List.foldl_cons]
    by_cases he : hd = c
    · subst he
      obtain ⟨ihd, ihw⟩ := ih hndtl (splatCell N r n pc hd st)
      obtain ⟨sd, sw⟩ := splatCell_self N r n pc st hc
      rw [ihd, ihw, sd, sw, if_neg hmem, if_pos (List.mem_cons_self hd tl)]
      constructor <;> ring
    · obtain ⟨ihd, ihw⟩ := ih hndtl (splatCell N r n pc hd st)
      obtain ⟨sd, sw⟩ := splatCell_other N r n pc st hc he
      rw [ihd, ihw, sd, sw]
      have hmc : (c ∈ hd :: tl) ↔ (c ∈ tl) := by
        rw [List.mem_cons]
        exact or_iff_right (fun h => he h.symm)
      by_cases hct : c ∈ tl
      · rw [if_pos hct, if_pos (hmc.mpr hct)]; exact ⟨rfl, rfl⟩
      · rw [if_neg hct, if_neg (fun h => hct (hmc.mp h))]; exact ⟨rfl, rfl⟩

lemma foldl_splatCell_colors_none {N : ℕ × ℕ × ℕ} {r : ℝ} {n : Vec3}
    {L : List (ℤ × ℤ × ℤ)} (st : SplatState) :
    (L.foldl (fun st cell => splatCell N r n none cell st) st).colorR = st.colorR ∧
      (L.foldl (fun st cell => splatCell N r n none cell st) st).colorG = st.colorG ∧
      (L.foldl (fun st cell => splatCell N r n none cell st) st).colorB = st.colorB := by
  induction L generalizing st with
  | nil => exact ⟨rfl, rfl, rfl⟩
  | cons hd tl ih =>
    simp only [List.foldl_cons]
    obtain ⟨i1, i2, i3⟩ := ih (splatCell N r n none hd st)
    obtain ⟨s1, s2, s3⟩ := splatCell_colors_none N r n hd st
    exact ⟨by rw [i1, s1], by rw [i2, s2], by rw [i3, s3]⟩

/-- The list of (dx, dy, dz) offsets traversed by three nested loops. -/
def tripleProd (l1 l2 l3 : List ℤ) : List (ℤ × ℤ × ℤ) :=
  l1.flatMap fun dx => l2.flatMap fun dy => l3.map fun dz => (dx, dy, dz)

lemma mem_intRange {lo hi a : ℤ} : a ∈ intRange lo hi ↔ lo ≤ a ∧ a ≤ hi := by
  unfold intRange
  rw [List.mem_map]
  constructor
  · rintro ⟨k, hk, rfl⟩
    rw [List.mem_range] at hk
    omega
  · rintro ⟨h1, h2⟩
    refine ⟨(a - lo).toNat, ?_, ?_⟩
    · rw [List.mem_range]; omega
    · omega

lemma nodup_intRange {lo hi : ℤ} : (intRange lo hi).Nodup := by
  exact List.Nodup.map (fun a b h => by omega) (List.nodup_range _)

lemma mem_tripleProd {l1 l2 l3 : List ℤ} {d : ℤ × ℤ × ℤ} :
    d ∈ tripleProd l1 l2 l3 ↔ d.1 ∈ l1 ∧ d.2.1 ∈ l2 ∧ d.2.2 ∈ l3 := by
  rcases d with ⟨dx, dy, dz⟩
  constructor
  · intro h
    simp only [tripleProd, List.mem_flatMap, List.mem_map] at h
    obtain ⟨x, hx, y, hy, z, hz, h⟩ := h
    obtain ⟨h1, h2, h3⟩ : x = dx ∧ y = dy ∧ z = dz := by simpa using h
    subst h1; subst h2; subst h3
    exact ⟨hx, hy, hz⟩
  · rintro ⟨ha, hb, hc⟩
    simp only [tripleProd, List.mem_flatMap, List.mem_map]
    exact ⟨dx, ha, dy, hb, dz, hc, rfl⟩

lemma nodup_tripleProd (l1 l2 l3 : List ℤ) (h1 : l1.Nodup) (h2 : l2.Nodup)
    (h3 : l3.Nodup) : (tripleProd l1 l2 l3).Nodup := by
  unfold tripleProd
  rw [List.nodup_flatMap]
  constructor
  · intro dx _
    rw [List.nodup_flatMap]
    refine ⟨fun dy _ => List.Nodup.map (fun a b h => by simpa using h) h3, ?_⟩
    refine h2.imp ?_
    intro a b hab
    simp only [Function.onFun]
    intro p hpa hpb
    simp only [List.mem_map] at hpa hpb
    obtain ⟨za, _, ea⟩ := hpa
    obtain ⟨zb, _, eb⟩ := hpb
    have h : (dx, a, za) = (dx, b, zb) := ea.trans eb.symm
    have h' : a = b ∧ za = zb := by simpa using h
    exact hab h'.1
  · refine h1.imp ?_
    intro a b hab
    simp only [Function.onFun]
    intro p hpa hpb
    simp only [List.mem_flatMap, List.mem_map] at hpa hpb
    obtain ⟨ya, _, za, _, ea⟩ := hpa
    obtain ⟨yb, _, zb, _, eb⟩ := hpb
    have h : (a, ya, za) = (b, yb, zb) := ea.trans eb.symm
    have h' : a = b ∧ ya = yb ∧ za = zb := by simpa using h
    exact hab h'.1

lemma nested_foldl_eq2 {β : Type} (f : β → (ℤ × ℤ × ℤ) → β) (x : ℤ)
    (l2 l3 : List ℤ) (b : β) :
    l2.foldl (fun b dy => l3.foldl (fun b dz => f b (x, dy, dz)) b) b =
      (l2.flatMap fun dy => l3.map fun dz => (x, dy, dz)).foldl f b := by
  induction l2 generalizing b with
  | nil => rfl
  | cons y ys ih =>
    simp only [List.foldl_cons, List.flatMap_cons, List.foldl_append]
    rw [← ih]
    congr 1
    exact (List.foldl_map _ _ _ _).symm

lemma nested_foldl_eq {β : Type} (f : β → (ℤ × ℤ × ℤ) → β) (l1 l2 l3 : List ℤ)
    (b : β) :
    l1.foldl (fun b dx => l2.foldl (fun b dy =>
        l3.foldl (fun b dz => f b (dx, dy, dz)) b) b) b =
      (tripleProd l1 l2 l3).foldl f b := by
  induction l1 generalizing b with
  | nil => rfl
  | cons x xs ih =>
    simp only [List.foldl_cons, tripleProd, List.flatMap_cons, List.foldl_append]
    rw [← tripleProd, ← ih]
    congr 1
    exact nested_foldl_eq2 f x l2 l3 b

lemma splatPoint_eq_foldl (N : ℕ × ℕ × ℕ) (r : ℝ) (gmin gmax : Vec3)
    (positions : ℕ → ℝ) (colors : Option (ℕ → ℝ)) (i : ℕ) (st : SplatState) :
    splatPoint N r gmin gmax positions colors i st =
      (((tripleProd (intRange (-⌈r⌉) ⌈r⌉) (intRange (-⌈r⌉) ⌈r⌉)
            (intRange (-⌈r⌉) ⌈r⌉)).map
          (fun d => ((containingCell (gridPos N gmin gmax positions i)).1 + d.1,
            (containingCell (gridPos N gmin gmax positions i)).2.1 + d.2.1,
            (containingCell (gridPos N gmin gmax positions i)).2.2 + d.2.2))).foldl
        (fun st cell => splatCell N r (gridPos N gmin gmax positions i)
          (colors.map fun col => (col (i * 3), col (i * 3 + 1), col (i * 3 + 2))) cell st)
        st) := by
  simp only [splatPoint]
  rw [List.foldl_map]
  exact nested_foldl_eq
    (fun st d => splatCell N r (gridPos N gmin gmax positions i)
      (Option.map (fun col => (col (i * 3), col (i * 3 + 1), col (i * 3 + 2))) colors)
      ((containingCell (gridPos N gmin gmax positions i)).1 + d.1,
        (containingCell (gridPos N gmin gmax positions i)).2.1 + d.2.1,
        (containingCell (gridPos N gmin gmax positions i)).2.2 + d.2.2) st)
    (intRange (-⌈r⌉) ⌈r⌉) (intRange (-⌈r⌉) ⌈r⌉) (intRange (-⌈r⌉) ⌈r⌉) st

lemma splatPoint_contribution (N : ℕ × ℕ × ℕ) (r : ℝ) (gmin gmax : Vec3)
    (positions : ℕ → ℝ) (colors : Option (ℕ → ℝ)) (i : ℕ) (st : SplatState)
    {c : ℤ × ℤ × ℤ} (hc : cellInBounds N c) :
    (splatPoint N r gmin gmax positions colors i st).density (cellIdx N c) =
        st.density (cellIdx N c) +
          (if |c.1 - (containingCell (gridPos N gmin gmax positions i)).1| ≤ ⌈r⌉ ∧
              |c.2.1 - (containingCell (gridPos N gmin gmax positions i)).2.1| ≤ ⌈r⌉ ∧
              |c.2.2 - (containingCell (gridPos N gmin gmax positions i)).2.2| ≤ ⌈r⌉ then
            cpuCellAdd r (gridPos N gmin gmax positions i) c else 0) ∧
      (splatPoint N r gmin gmax positions colors i st).weights (cellIdx N c) =
        st.weights (cellIdx N c) +
          (if |c.1 - (containingCell (gridPos N gmin gmax positions i)).1| ≤ ⌈r⌉ ∧
              |c.2.1 - (containingCell (gridPos N gmin gmax positions i)).2.1| ≤ ⌈r⌉ ∧
              |c.2.2 - (containingCell (gridPos N gmin gmax positions i)).2.2| ≤ ⌈r⌉ then
            cpuCellAdd r (gridPos N gmin gmax positions i) c else 0) := by
  rw [splatPoint_eq_foldl]
  have hinj : Function.Injective
      (fun d : ℤ × ℤ × ℤ => ((containingCell (gridPos N gmin gmax positions i)).1 + d.1,
        (containingCell (gridPos N gmin gmax positions i)).2.1 + d.2.1,
        (containingCell (gridPos N gmin gmax positions i)).2.2 + d.2.2)) := by
    intro a b h
    rcases a with ⟨a1, a2, a3⟩
    rcases b with ⟨b1, b2, b3⟩
    simp only [Prod.mk.injEq] at h ⊢
    omega
  have hnd := List.Nodup.map hinj
    (nodup_tripleProd (intRange (-⌈r⌉) ⌈r⌉) (intRange (-⌈r⌉) ⌈r⌉) (intRange (-⌈r⌉) ⌈r⌉)
      nodup_intRange nodup_intRange nodup_intRange)
  obtain ⟨hdn, hwt⟩ := foldl_splatCell_contribution hnd st hc
  rw [hdn, hwt]
  have hmemiff : (c ∈ (tripleProd (intRange (-⌈r⌉) ⌈r⌉) (intRange (-⌈r⌉) ⌈r⌉)
        (intRange (-⌈r⌉) ⌈r⌉)).map
        (fun d => ((containingCell (gridPos N gmin gmax positions i)).1 + d.1,
          (containingCell (gridPos N gmin gmax positions i)).2.1 + d.2.1,
          (containingCell (gridPos N gmin gmax positions i)).2.2 + d.2.2))) ↔
      (|c.1 - (containingCell (gridPos N gmin gmax positions i)).1| ≤ ⌈r⌉ ∧
        |c.2.1 - (containingCell (gridPos N gmin gmax positions i)).2.1| ≤ ⌈r⌉ ∧
        |c.2.2 - (containingCell (gridPos N gmin gmax positions i)).2.2| ≤ ⌈r⌉) := by
    rw [List.mem_map]
    constructor
    · rintro ⟨d, hd, rfl⟩
      rw [mem_tripleProd] at hd
      obtain ⟨m1, m2, m3⟩ := hd
      rw [mem_intRange] at m1 m2 m3
      refine ⟨?_, ?_, ?_⟩ <;> rw [abs_le] <;>
        simp only [add_sub_cancel_left] <;> omega
    · rintro ⟨h1, h2, h3⟩
      rw [abs_le] at h1 h2 h3
      refine ⟨(c.1 - (containingCell (gridPos N gmin gmax positions i)).1,
        c.2.1 - (containingCell (gridPos N gmin gmax positions i)).2.1,
        c.2.2 - (containingCell (gridPos N gmin gmax positions i)).2.2), ?_, ?_⟩
      · rw [mem_tripleProd]
        dsimp only
        refine ⟨?_, ?_, ?_⟩ <;> rw [mem_intRange] <;> constructor <;> omega
      · rcases c with ⟨c1, c2, c3⟩
        dsimp only
        simp only [Prod.mk.injEq]
        refine ⟨by omega, by omega, by omega⟩
  simp [hmemiff]

lemma splatPoint_colors_none (N : ℕ × ℕ × ℕ) (r : ℝ) (gmin gmax : Vec3)
    (positions : ℕ → ℝ) (i : ℕ) (st : SplatState) :
    (splatPoint N r gmin gmax positions none i st).colorR = st.colorR ∧
      (splatPoint N r gmin gmax positions none i st).colorG = st.colorG ∧
      (splatPoint N r gmin gmax positions none i st).colorB = st.colorB := by
  rw [splatPoint_eq_foldl]
  exact foldl_splatCell_colors_none st

lemma splatAll_colors_none (N : ℕ × ℕ × ℕ) (r : ℝ) (gmin gmax : Vec3)
    (positions : ℕ → ℝ) (count : ℕ) :
    (splatAll N r gmin gmax positions none count).colorR = (fun _ => 0) ∧
      (splatAll N r gmin gmax positions none count).colorG = (fun _ => 0) ∧
      (splatAll N r gmin gmax positions none count).colorB = (fun _ => 0) := by
  unfold splatAll
  have key : ∀ (L : List ℕ) (st : SplatState),
      ((L.foldl (fun st i => splatPoint N r gmin gmax positions none i st) st).colorR
          = st.colorR) ∧
        ((L.foldl (fun st i => splatPoint N r gmin gmax positions none i st) st).colorG
          = st.colorG) ∧
        ((L.foldl (fun st i => splatPoint N r gmin gmax positions none i st) st).colorB
          = st.colorB) := by
    intro L
    induction L with
    | nil => exact fun st => ⟨rfl, rfl, rfl⟩
    | cons hd tl ih =>
      intro st
      simp only [List.foldl_cons]
      obtain ⟨i1, i2, i3⟩ := ih (splatPoint N r gmin gmax positions none hd st)
      obtain ⟨s1, s2, s3⟩ := splatPoint_colors_none N r gmin gmax positions hd st
      exact ⟨by rw [i1, s1], by rw [i2, s2], by rw [i3, s3]⟩
  exact key (List.range count) initSplatState

/-! ## A concrete single-point scenario (1×1×1 grid over the unit cube) -/

/-- A 1×1×1 grid. -/
def demoGrid : ℕ × ℕ × ℕ := (1, 1, 1)

/-- A single point at (0.5, 0.5, 0.5): every slot of the backing array is 0.5. -/
noncomputable def demoPositions : ℕ → ℝ := fun _ => 0.5

lemma demo_gridPos :
    gridPos demoGrid (0, 0, 0) (1, 1, 1) demoPositions 0 = (0.5, 0.5, 0.5) := by
  simp only [gridPos, demoGrid, demoPositions, Prod.mk.injEq]
  norm_num

lemma demo_containingCell :
    containingCell ((0.5 : ℝ), (0.5 : ℝ), (0.5 : ℝ)) = (0, 0, 0) := by
  have h : ⌊(0.5 : ℝ)⌋ = 0 := by
    rw [Int.floor_eq_zero_iff]
    constructor <;> norm_num
  simp only [containingCell, Prod.mk.injEq]
  exact ⟨h, h, h⟩

lemma demo_ceil : ⌈(0.5 : ℝ)⌉ = 1 := by
  rw [Int.ceil_eq_iff] <;> norm_num

lemma demo_cellDist : cellDist ((0.5 : ℝ), (0.5 : ℝ), (0.5 : ℝ)) 0 0 0 = 0 := by
  unfold cellDist
  norm_num

lemma demo_cpuCellAdd : cpuCellAdd 0.5 ((0.5 : ℝ), (0.5 : ℝ), (0.5 : ℝ)) (0, 0, 0) = 1 := by
  unfold cpuCellAdd
  rw [show ((0, 0, 0) : ℤ × ℤ × ℤ).1.toNat = 0 from rfl,
    demo_cellDist, if_neg (by norm_num)]
  unfold gaussWeight
  norm_num [Real.exp_zero]

lemma demo_splatAll :
    (splatAll demoGrid 0.5 (0, 0, 0) (1, 1, 1) demoPositions none 1).density 0 = 1 ∧
      (splatAll demoGrid 0.5 (0, 0, 0) (1, 1, 1) demoPositions none 1).weights 0 = 1 := by
  unfold splatAll
  rw [show List.range 1 = [0] from rfl]
  simp only [List.foldl_cons, List.foldl_nil]
  have hc : cellInBounds demoGrid (0, 0, 0) := by
    unfold cellInBounds demoGrid; norm_num
  obtain ⟨hd, hw⟩ := splatPoint_contribution demoGrid 0.5 (0, 0, 0) (1, 1, 1)
    demoPositions none 0 initSplatState hc
  rw [demo_gridPos, demo_containingCell, demo_ceil, demo_cpuCellAdd] at hd hw
  rw [if_pos (by norm_num)] at hd hw
  have hidx : cellIdx demoGrid (0, 0, 0) = 0 := rfl
  rw [hidx] at hd hw
  simpa [initSplatState] using And.intro hd hw

lemma demo_density :
    (buildDensityField demoGrid 0.5 (0, 0, 0) (1, 1, 1) demoPositions none 1).density 0
      = 1 := by
  have h := demo_splatAll.1
  simpa [buildDensityField] using h

lemma demo_colorR :
    (buildDensityField demoGrid 0.5 (0, 0, 0) (1, 1, 1) demoPositions none 1).colorR 0
      = 0 := by
  have hw := demo_splatAll.2
  obtain ⟨hR, _, _⟩ := splatAll_colors_none demoGrid 0.5 ((0 : ℝ), (0 : ℝ), (0 : ℝ))
    ((1 : ℝ), (1 : ℝ), (1 : ℝ)) demoPositions 1
  simp only [buildDensityField]
  rw [hR, hw]
  norm_num [demoGrid]

/-! ## Claim C1 -/

/-- C1 counterexample: in the sequential variant the density field handed to
march is the raw accumulated Gaussian weight.  For a single point at the
center of a 1×1×1 grid with splatRadius 0.5 the cell's final density is
exactly 1, which differs from the claimed saturating value
1 - exp(-1·0.5) and does not lie in the half-open interval [0, 1). -/
theorem C1_counterexample :
    (buildDensityField demoGrid 0.5 (0, 0, 0) (1, 1, 1) demoPositions none 1).density 0
        = 1 ∧
      (1 : ℝ) ≠ 1 - Real.exp (-(1 : ℝ) * 0.5) ∧ ¬((1 : ℝ) < 1) := by
  refine ⟨demo_density, ?_, by norm_num⟩
  have h := Real.exp_pos (-(1 : ℝ) * 0.5)
  intro he
  nlinarith

/-- C1 (amended): the GPU normalize pass maps the quantized raw accumulator
raw to 1 - exp(-(raw/1000)·0.5), which lies in [0, 1) for every cell; the
sequential buildDensityField applies no saturating curve and returns the raw
accumulated weight, which reaches 1 already for a single point at a cell
center. -/
theorem C1_density_normalization :
    (∀ raw : ℕ,
        normalizeDensity raw = 1 - Real.exp (-((raw : ℝ) / 1000) * 0.5) ∧
          0 ≤ normalizeDensity raw ∧ normalizeDensity raw < 1) ∧
      (buildDensityField demoGrid 0.5 (0, 0, 0) (1, 1, 1) demoPositions none 1).density 0
        = 1 := by
  refine ⟨fun raw => ⟨rfl, ?_, ?_⟩, demo_density⟩
  · simp only [normalizeDensity]
    have h0 : (0 : ℝ) ≤ (raw : ℝ) / 1000 := by positivity
    have h := Real.exp_le_exp.mpr (show -((raw : ℝ) / 1000) * 0.5 ≤ 0 by nlinarith)
    rw [Real.exp_zero] at h
    linarith
  · have h := Real.exp_pos (-((raw : ℝ) / 1000) * 0.5)
    simp only [normalizeDensity]
    linarith

/-! ## Claim C2 -/

lemma testBit_one_shiftLeft (a j : ℕ) :
    Nat.testBit (1 <<< a) j = decide (a = j) := by
  rw [Nat.shiftLeft_eq, one_mul]
  exact Nat.testBit_two_pow

lemma testBit_orBit_foldl (P : ℕ → Prop) [DecidablePred P] (L : List ℕ) (acc : ℕ)
    (j : ℕ) :
    Nat.testBit (L.foldl (fun ci i => if P i then ci ||| (1 <<< i) else ci) acc) j
      = (Nat.testBit acc j || (decide (j ∈ L) && decide (P j))) := by
  induction L generalizing acc with
  | nil => simp
  | cons a L ih =>
    simp only [List.foldl_cons, ih]
    by_cases hP : P a
    · rw [if_pos hP, Nat.testBit_or, testBit_one_shiftLeft]
      by_cases hj : j = a
      · subst hj
        simp [List.mem_cons, hP]
      · have hj' : ¬a = j := fun h => hj h.symm
        simp [List.mem_cons, hj, hj']
    · rw [if_neg hP]
      by_cases hj : j = a
      · subst hj
        simp [List.mem_cons, hP]
      · simp [List.mem_cons, hj]

lemma gpuCubeIndex_testBit (d : ℕ → ℝ) (iso : ℝ) (j : ℕ) :
    Nat.testBit (gpuCubeIndex d iso) j
      = (decide (j ∈ List.range 8) && decide (d j < iso)) := by
  unfold gpuCubeIndex
  rw [testBit_orBit_foldl (fun i => d i < iso)]
  simp

lemma cpuCubeIndex_eq_foldl (d : ℕ → ℝ) (iso : ℝ) :
    cpuCubeIndex d iso =
      (List.range 8).foldl (fun ci i => if d i > iso then ci ||| (1 <<< i) else ci) 0 := by
  rfl

lemma cpuCubeIndex_testBit (d : ℕ → ℝ) (iso : ℝ) (j : ℕ) :
    Nat.testBit (cpuCubeIndex d iso) j
      = (decide (j ∈ List.range 8) && decide (d j > iso)) := by
  rw [cpuCubeIndex_eq_foldl, testBit_orBit_foldl (fun i => d i > iso)]
  simp

/-- C2: the marching-cubes shader sets bit i of cubeIndex exactly when
corner i's density is strictly below the iso value, the sequential march
sets it exactly when the density is strictly above, and when no corner
density equals the iso value the two 8-bit classifications are bitwise
complements (their xor is 255). -/
theorem C2_cube_index_conventions :
    ∀ (d : ℕ → ℝ) (iso : ℝ),
      (∀ i, i < 8 → (Nat.testBit (gpuCubeIndex d iso) i = true ↔ d i < iso)) ∧
        (∀ i, i < 8 → (Nat.testBit (cpuCubeIndex d iso) i = true ↔ d i > iso)) ∧
        ((∀ i, i < 8 → d i ≠ iso) →
          gpuCubeIndex d iso ^^^ cpuCubeIndex d iso = 255) := by
  intro d iso
  refine ⟨?_, ?_, ?_⟩
  · intro i hi
    rw [gpuCubeIndex_testBit]
    simp [List.mem_range, hi]
  · intro i hi
    rw [cpuCubeIndex_testBit]
    simp [List.mem_range, hi]
  · intro hne
    apply Nat.eq_of_testBit_eq
    intro j
    rw [Nat.testBit_xor, gpuCubeIndex_testBit, cpuCubeIndex_testBit]
    rw [show (255 : ℕ) = 2 ^ 8 - 1 by norm_num, Nat.testBit_two_pow_sub_one]
    by_cases hj : j < 8
    · have hne' := hne j hj
      rcases lt_trichotomy (d j) iso with h | h | h
      · simp [List.mem_range, hj, h, asymm h]
      · exact absurd h hne'
      · simp [List.mem_range, hj, h, asymm h]
    · simp [List.mem_range, hj]

/-- C2 witness: the all-zero corner field with iso value 0.5 never equals
the iso value, and the two classifications xor to 255. -/
theorem C2_witness :
    (∀ i, i < 8 → (fun _ : ℕ => (0 : ℝ)) i ≠ 0.5) ∧
      gpuCubeIndex (fun _ => 0) 0.5 ^^^ cpuCubeIndex (fun _ => 0) 0.5 = 255 := by
  have h : ∀ i, i < 8 → (fun _ : ℕ => (0 : ℝ)) i ≠ 0.5 := fun i _ => by norm_num
  exact ⟨h, (C2_cube_index_conventions (fun _ => 0) 0.5).2.2 h⟩

/-! ## Claims C3 and C4 -/

/-- The GPU voxel index of an integer cell. -/
def gpuCellIdx (N : ℕ × ℕ × ℕ) (c : ℤ × ℤ × ℤ) : ℕ :=
  gpuVoxelIndex N c.1.toNat c.2.1.toNat c.2.2.toNat

lemma gpuSplatCell_self {N : ℕ × ℕ × ℕ} {gmin gmax : Vec3} {radius : ℝ}
    {pos color : Vec3} {c : ℤ × ℤ × ℤ} (st : GPUVoxelState) (hc : cellInBounds N c) :
    (gpuSplatCell N gmin gmax radius pos color c st).voxelDensity (gpuCellIdx N c) =
      if radius < gpuCellDist N gmin gmax pos c ∨
          gpuQuantizedWeight (gpuCellDist N gmin gmax pos c) radius = 0 then
        st.voxelDensity (gpuCellIdx N c)
      else (st.voxelDensity (gpuCellIdx N c) +
        gpuQuantizedWeight (gpuCellDist N gmin gmax pos c) radius) % 2 ^ 32 := by
  obtain ⟨h1, h2, h3, h4, h5, h6⟩ := hc
  rw [gpuSplatCell, if_neg (by omega)]
  by_cases hd : radius < gpuCellDist N gmin gmax pos c
  · rw [if_pos hd, if_pos (Or.inl hd)]
  · rw [if_neg hd]
    by_cases hq : gpuQuantizedWeight (gpuCellDist N gmin gmax pos c) radius = 0
    · rw [if_pos hq, if_pos (Or.inr hq)]
    · rw [if_neg hq, if_neg (by tauto)]
      simp [gpuCellIdx]

/-- C3 counterexample: for a single colorless point at the center of a
1×1×1 grid the cell's accumulated weight is 1, far above the 0.001 epsilon,
yet the sequential normalization leaves the cell's red channel at 0, not at
the claimed neutral gray 0.5 (the CPU splat never adds a gray contribution
when colors are absent). -/
theorem C3_counterexample :
    (splatAll demoGrid 0.5 (0, 0, 0) (1, 1, 1) demoPositions none 1).weights 0 = 1 ∧
      ((0.001 : ℝ) < 1) ∧
      (buildDensityField demoGrid 0.5 (0, 0, 0) (1, 1, 1) demoPositions none 1).colorR 0
        = 0 ∧
      (0 : ℝ) ≠ 0.5 :=
  ⟨demo_splatAll.2, by norm_num, demo_colorR, by norm_num⟩

/-- C3 (amended): with colors absent, the GPU orchestrator substitutes the
neutral gray (0.5, 0.5, 0.5) per point at upload, while the sequential
buildDensityField leaves the color accumulators at zero, so a cell with
positive accumulated weight normalizes to (0, 0, 0) and only a zero-weight
cell receives the gray default. -/
theorem C3_absent_colors :
    (∀ i : ℕ, gpuColorData none i = ((0.5, 0.5, 0.5), 1)) ∧
      (∀ (N : ℕ × ℕ × ℕ) (r : ℝ) (gmin gmax : Vec3) (positions : ℕ → ℝ)
          (count idx : ℕ), idx < N.1 * N.2.1 * N.2.2 →
        (buildDensityField N r gmin gmax positions none count).colorR idx =
            (if 0 < (splatAll N r gmin gmax positions none count).weights idx
             then 0 else 0.5) ∧
          (buildDensityField N r gmin gmax positions none count).colorG idx =
            (if 0 < (splatAll N r gmin gmax positions none count).weights idx
             then 0 else 0.5) ∧
          (buildDensityField N r gmin gmax positions none count).colorB idx =
            (if 0 < (splatAll N r gmin gmax positions none count).weights idx
             then 0 else 0.5)) := by
  refine ⟨fun i => rfl, ?_⟩
  intro N r gmin gmax positions count idx hidx
  obtain ⟨hR, hG, hB⟩ := splatAll_colors_none N r gmin gmax positions count
  simp only [buildDensityField]
  rw [hR, hG, hB]
  refine ⟨?_, ?_, ?_⟩ <;> rw [if_pos hidx] <;>
    by_cases hw : 0 < (splatAll N r gmin gmax positions none count).weights idx <;>
    simp [hw]

/-- C3 witness: the amended statement instantiated at the single-point
scenario, where cell 0 is inside the 1×1×1 grid. -/
theorem C3_witness :
    (0 : ℕ) < demoGrid.1 * demoGrid.2.1 * demoGrid.2.2 ∧
      (buildDensityField demoGrid 0.5 (0, 0, 0) (1, 1, 1) demoPositions none 1).colorR 0 =
        (if 0 < (splatAll demoGrid 0.5 (0, 0, 0) (1, 1, 1) demoPositions none 1).weights 0
         then 0 else 0.5) := by
  refine ⟨by norm_num [demoGrid], ?_⟩
  exact (C3_absent_colors.2 demoGrid 0.5 (0, 0, 0) (1, 1, 1) demoPositions 1 0
    (by norm_num [demoGrid])).1

/-- C4 counterexample: at world distance 2 with splatRadius 2 (inside the
cutoff, since 2 < 2 is false) the splat shader adds the quantized integer
u32(w·1000) = 135 to the cell accumulator, strictly less than 1000 times
the Gaussian weight w = exp(-dist²/(2σ²)) = exp(-2) the claim promises:
the GPU variant does not add w itself. -/
theorem C4_counterexample :
    gpuQuantizedWeight 2 2 = 135 ∧ (135 : ℝ) < gaussWeight 2 2 * 1000 ∧
      ¬((2 : ℝ) < 2) := by
  have hE1 : (2.7182818283 : ℝ) < Real.exp 1 := Real.exp_one_gt_d9
  have hE2 : Real.exp 1 < 2.7182818286 := Real.exp_one_lt_d9
  have hpos : (0 : ℝ) < Real.exp 1 := Real.exp_pos 1
  have h2 : Real.exp (2 : ℝ) = Real.exp 1 * Real.exp 1 := by
    rw [← Real.exp_add]; norm_num
  have hexp : Real.exp (-2 : ℝ) = (Real.exp 1 * Real.exp 1)⁻¹ := by
    rw [Real.exp_neg, h2]
  have hEEl : (7.389056 : ℝ) < Real.exp 1 * Real.exp 1 := by nlinarith
  have hEEu : Real.exp 1 * Real.exp 1 < 7.389057 := by nlinarith
  have hml : (135.335 : ℝ) < Real.exp (-2 : ℝ) * 1000 := by
    rw [hexp, inv_mul_eq_div, lt_div_iff (by positivity)]
    nlinarith
  have hmu : Real.exp (-2 : ℝ) * 1000 < 136 := by
    rw [hexp, inv_mul_eq_div, div_lt_iff (by positivity)]
    nlinarith
  have hw : gpuSplatWeight 2 2 = Real.exp (-2 : ℝ) := by
    unfold gpuSplatWeight; norm_num
  have hg : gaussWeight 2 2 = Real.exp (-2 : ℝ) := by
    unfold gaussWeight; norm_num
  refine ⟨?_, ?_, by norm_num⟩
  · unfold gpuQuantizedWeight u32val
    rw [hw]
    have hfl : ⌊Real.exp (-2 : ℝ) * 1000⌋₊ = 135 := by
      rw [Nat.floor_eq_iff (by positivity)]
      constructor
      · push_cast; linarith
      · push_cast; linarith
    rw [hfl]
    exact Nat.min_eq_left (by norm_num)
  · rw [hg]; linarith

/-- C4 (amended): in the sequential Voxelizer, splatting one point adds to
every in-bounds cell of the ceil(splatRadius) cubic neighborhood exactly the
Gaussian weight exp(-dist²/(2·(r·0.5)²)) of its grid-space distance to the
cell center when dist ≤ splatRadius, and adds exactly zero to every other
in-bounds cell; the GPU splat shader instead adds the fixed-point quantized
integer u32(w·1000) of the world-space distance (wrapping mod 2^32), and
skips cells whose quantized weight rounds to zero. -/
theorem C4_gaussian_splat :
    (∀ (N : ℕ × ℕ × ℕ) (r : ℝ) (gmin gmax : Vec3) (positions : ℕ → ℝ)
        (colors : Option (ℕ → ℝ)) (i : ℕ) (st : SplatState) (c : ℤ × ℤ × ℤ),
        cellInBounds N c →
          (splatPoint N r gmin gmax positions colors i st).density (cellIdx N c) =
            st.density (cellIdx N c) +
              (if |c.1 - (containingCell (gridPos N gmin gmax positions i)).1| ≤ ⌈r⌉ ∧
                  |c.2.1 - (containingCell (gridPos N gmin gmax positions i)).2.1| ≤ ⌈r⌉ ∧
                  |c.2.2 - (containingCell (gridPos N gmin gmax positions i)).2.2| ≤ ⌈r⌉ then
                cpuCellAdd r (gridPos N gmin gmax positions i) c else 0)) ∧
      (∀ (N : ℕ × ℕ × ℕ) (gmin gmax : Vec3) (radius : ℝ) (pos color : Vec3)
          (c : ℤ × ℤ × ℤ) (st : GPUVoxelState), cellInBounds N c →
        (gpuSplatCell N gmin gmax radius pos color c st).voxelDensity (gpuCellIdx N c) =
          if radius < gpuCellDist N gmin gmax pos c ∨
              gpuQuantizedWeight (gpuCellDist N gmin gmax pos c) radius = 0 then
            st.voxelDensity (gpuCellIdx N c)
          else (st.voxelDensity (gpuCellIdx N c) +
            gpuQuantizedWeight (gpuCellDist N gmin gmax pos c) radius) % 2 ^ 32) :=
  ⟨fun N r gmin gmax positions colors i st c hc =>
    (splatPoint_contribution N r gmin gmax positions colors i st hc).1,
   fun _ _ _ _ _ _ _ st hc => gpuSplatCell_self st hc⟩

/-- C4 witness: both contribution formulas instantiated at the single-point
scenario (cell (0,0,0) of the 1×1×1 grid). -/
theorem C4_witness :
    cellInBounds demoGrid (0, 0, 0) ∧
      ((splatPoint demoGrid 0.5 (0, 0, 0) (1, 1, 1) demoPositions none 0
            initSplatState).density (cellIdx demoGrid (0, 0, 0)) =
        initSplatState.density (cellIdx demoGrid (0, 0, 0)) +
          (if |(0 : ℤ) - (containingCell
                (gridPos demoGrid (0, 0, 0) (1, 1, 1) demoPositions 0)).1| ≤ ⌈(0.5 : ℝ)⌉ ∧
              |(0 : ℤ) - (containingCell
                (gridPos demoGrid (0, 0, 0) (1, 1, 1) demoPositions 0)).2.1| ≤ ⌈(0.5 : ℝ)⌉ ∧
              |(0 : ℤ) - (containingCell
                (gridPos demoGrid (0, 0, 0) (1, 1, 1) demoPositions 0)).2.2| ≤ ⌈(0.5 : ℝ)⌉ then
            cpuCellAdd 0.5 (gridPos demoGrid (0, 0, 0) (1, 1, 1) demoPositions 0) (0, 0, 0)
          else 0)) ∧
      ((gpuSplatCell demoGrid (0, 0, 0) (1, 1, 1) 0.5 (0.5, 0.5, 0.5) (1, 1, 1) (0, 0, 0)
            gpuClearState).voxelDensity (gpuCellIdx demoGrid (0, 0, 0)) =
        if (0.5 : ℝ) < gpuCellDist demoGrid (0, 0, 0) (1, 1, 1) (0.5, 0.5, 0.5) (0, 0, 0) ∨
            gpuQuantizedWeight
              (gpuCellDist demoGrid (0, 0, 0) (1, 1, 1) (0.5, 0.5, 0.5) (0, 0, 0)) 0.5 = 0 then
          gpuClearState.voxelDensity (gpuCellIdx demoGrid (0, 0, 0))
        else (gpuClearState.voxelDensity (gpuCellIdx demoGrid (0, 0, 0)) +
          gpuQuantizedWeight
            (gpuCellDist demoGrid (0, 0, 0) (1, 1, 1) (0.5, 0.5, 0.5) (0, 0, 0)) 0.5) % 2 ^ 32) := by
  have hc : cellInBounds demoGrid (0, 0, 0) := by unfold cellInBounds demoGrid; norm_num
  exact ⟨hc,
    C4_gaussian_splat.1 demoGrid 0.5 (0, 0, 0) (1, 1, 1) demoPositions none 0
      initSplatState (0, 0, 0) hc,
    C4_gaussian_splat.2 demoGrid (0, 0, 0) (1, 1, 1) 0.5 (0.5, 0.5, 0.5) (1, 1, 1)
      (0, 0, 0) gpuClearState hc⟩

/-! ## Claim C8 -/

/-- C8: vertex interpolation is total in both variants and never divides by
a near-zero quantity: within 1e-5 of corner 1 it returns p1 exactly, else
within 1e-5 of corner 2 it returns p2 exactly, else with the corner
densities within 1e-5 of each other it returns p1, and otherwise it returns
the linear interpolation p1 + t·(p2 - p1) with t = (iso - v1)/(v2 - v1),
whose divisor has magnitude at least 1e-5. -/
theorem C8_interpolation_guards :
    ∀ (p1 p2 : Vec3) (v1 v2 iso : ℝ),
      (|iso - v1| < 0.00001 →
        interpolateVertex p1 p2 v1 v2 iso = p1 ∧
          gpuInterpolateVertex p1 p2 v1 v2 iso = p1) ∧
      (0.00001 ≤ |iso - v1| → |iso - v2| < 0.00001 →
        interpolateVertex p1 p2 v1 v2 iso = p2 ∧
          gpuInterpolateVertex p1 p2 v1 v2 iso = p2) ∧
      (0.00001 ≤ |iso - v1| → 0.00001 ≤ |iso - v2| → |v1 - v2| < 0.00001 →
        interpolateVertex p1 p2 v1 v2 iso = p1 ∧
          gpuInterpolateVertex p1 p2 v1 v2 iso = p1) ∧
      (0.00001 ≤ |iso - v1| → 0.00001 ≤ |iso - v2| → 0.00001 ≤ |v1 - v2| →
        0.00001 ≤ |v2 - v1| ∧
          interpolateVertex p1 p2 v1 v2 iso =
            (p1.1 + (iso - v1) / (v2 - v1) * (p2.1 - p1.1),
             p1.2.1 + (iso - v1) / (v2 - v1) * (p2.2.1 - p1.2.1),
             p1.2.2 + (iso - v1) / (v2 - v1) * (p2.2.2 - p1.2.2)) ∧
          gpuInterpolateVertex p1 p2 v1 v2 iso =
            (p1.1 + (iso - v1) / (v2 - v1) * (p2.1 - p1.1),
             p1.2.1 + (iso - v1) / (v2 - v1) * (p2.2.1 - p1.2.1),
             p1.2.2 + (iso - v1) / (v2 - v1) * (p2.2.2 - p1.2.2))) := by
  intro p1 p2 v1 v2 iso
  refine ⟨?_, ?_, ?_, ?_⟩
  · intro h1
    unfold interpolateVertex gpuInterpolateVertex
    rw [if_pos h1, if_pos h1]
    exact ⟨rfl, rfl⟩
  · intro h1 h2
    unfold interpolateVertex gpuInterpolateVertex
    rw [if_neg (not_lt.mpr h1), if_pos h2, if_neg (not_lt.mpr h1), if_pos h2]
    exact ⟨rfl, rfl⟩
  · intro h1 h2 h3
    unfold interpolateVertex gpuInterpolateVertex
    rw [if_neg (not_lt.mpr h1), if_neg (not_lt.mpr h2), if_pos h3,
      if_neg (not_lt.mpr h1), if_neg (not_lt.mpr h2), if_pos h3]
    exact ⟨rfl, rfl⟩
  · intro h1 h2 h3
    have h3' : (0.00001 : ℝ) ≤ |v2 - v1| := by
      rw [abs_sub_comm]; exact h3
    refine ⟨h3', ?_, ?_⟩
    · unfold interpolateVertex
      rw [if_neg (not_lt.mpr h1), if_neg (not_lt.mpr h2), if_neg (not_lt.mpr h3)]
    · unfold gpuInterpolateVertex
      rw [if_neg (not_lt.mpr h1), if_neg (not_lt.mpr h2), if_neg (not_lt.mpr h3)]
      simp only [Prod.mk.injEq]
      refine ⟨by ring, by ring, by ring⟩

/-- C8 witness: the non-degenerate branch at p1 = 0, p2 = (1,1,1),
v1 = 0, v2 = 1, iso = 0.5, where every guard clears 1e-5. -/
theorem C8_witness :
    ((0.00001 : ℝ) ≤ |(0.5 : ℝ) - 0| ∧ (0.00001 : ℝ) ≤ |(0.5 : ℝ) - 1| ∧
        (0.00001 : ℝ) ≤ |(0 : ℝ) - 1|) ∧
      (0.00001 : ℝ) ≤ |(1 : ℝ) - 0| ∧
        interpolateVertex ((0 : ℝ), (0 : ℝ), (0 : ℝ)) ((1 : ℝ), (1 : ℝ), (1 : ℝ)) 0 1 0.5 =
          (((0 : ℝ) + (0.5 - 0) / (1 - 0) * (1 - 0),
            (0 : ℝ) + (0.5 - 0) / (1 - 0) * (1 - 0),
            (0 : ℝ) + (0.5 - 0) / (1 - 0) * (1 - 0)) : Vec3) ∧
        gpuInterpolateVertex ((0 : ℝ), (0 : ℝ), (0 : ℝ)) ((1 : ℝ), (1 : ℝ), (1 : ℝ)) 0 1 0.5 =
          (((0 : ℝ) + (0.5 - 0) / (1 - 0) * (1 - 0),
            (0 : ℝ) + (0.5 - 0) / (1 - 0) * (1 - 0),
            (0 : ℝ) + (0.5 - 0) / (1 - 0) * (1 - 0)) : Vec3) := by
  have h1 : (0.00001 : ℝ) ≤ |(0.5 : ℝ) - 0| := by
    rw [abs_of_nonneg (by norm_num)]; norm_num
  have h2 : (0.00001 : ℝ) ≤ |(0.5 : ℝ) - 1| := by
    rw [abs_of_nonpos (by norm_num)]; norm_num
  have h3 : (0.00001 : ℝ) ≤ |(0 : ℝ) - 1| := by
    rw [abs_of_nonpos (by norm_num)]; norm_num
  exact ⟨⟨h1, h2, h3⟩,
    (C8_interpolation_guards ((0 : ℝ), (0 : ℝ), (0 : ℝ)) ((1 : ℝ), (1 : ℝ), (1 : ℝ))
      0 1 0.5).2.2.2 h1 h2 h3⟩

/-! ## March length invariants (claim C5) -/

/-- The three output arrays of march stay aligned: normals and colors have
the vertices' length and triangles contribute 9 floats at a time. -/
def accAligned (acc : MarchAcc) : Prop :=
  acc.normals.length = acc.vertices.length ∧
    acc.colors.length = acc.vertices.length ∧ 9 ∣ acc.vertices.length

lemma emitTriangle_aligned {vertList colorList : ℕ → Option Vec3}
    {tri : Int × Int × Int} {acc : MarchAcc} (h : accAligned acc) :
    accAligned (emitTriangle vertList colorList tri acc) := by
  obtain ⟨h1, h2, h3⟩ := h
  unfold emitTriangle
  rcases lookupEdge vertList tri.1 with _ | v0 <;>
    rcases lookupEdge vertList tri.2.1 with _ | v1 <;>
    rcases lookupEdge vertList tri.2.2 with _ | v2 <;>
    rcases lookupEdge colorList tri.1 with _ | c0 <;>
    rcases lookupEdge colorList tri.2.1 with _ | c1 <;>
    rcases lookupEdge colorList tri.2.2 with _ | c2 <;>
    try exact ⟨h1, h2, h3⟩
  dsimp only
  split
  · exact ⟨h1, h2, h3⟩
  · simp [accAligned, h1, h2]
    omega

lemma foldl_preserves {α β : Type} (P : β → Prop) (f : β → α → β)
    (hf : ∀ b a, P b → P (f b a)) (L : List α) (b : β) (hb : P b) :
    P (L.foldl f b) := by
  induction L generalizing b with
  | nil => exact hb
  | cons a L ih => exact ih (f b a) (hf b a hb)

lemma marchCell_aligned {N : ℕ × ℕ × ℕ} {iso : ℝ} {gmin gmax : Vec3}
    {f : DensityField} {ix iy iz : ℕ} {acc : MarchAcc} (h : accAligned acc) :
    accAligned (marchCell N iso gmin gmax f ix iy iz acc) := by
  rw [marchCell]
  split
  · exact h
  · exact foldl_preserves accAligned _ (fun acc tri hacc => emitTriangle_aligned hacc) _ acc h

lemma march_aligned (N : ℕ × ℕ × ℕ) (iso : ℝ) (gmin gmax : Vec3) (f : DensityField) :
    (march N iso gmin gmax f).positions.length = 9 * (march N iso gmin gmax f).triangleCount ∧
      (march N iso gmin gmax f).normals.length = 9 * (march N iso gmin gmax f).triangleCount ∧
      (march N iso gmin gmax f).colors.length = 9 * (march N iso gmin gmax f).triangleCount := by
  have key : accAligned ((List.range (N.1 - 1)).foldl (fun acc ix =>
      (List.range (N.2.1 - 1)).foldl (fun acc iy =>
        (List.range (N.2.2 - 1)).foldl (fun acc iz =>
          marchCell N iso gmin gmax f ix iy iz acc) acc) acc)
      { vertices := [], normals := [], colors := [] }) := by
    refine foldl_preserves accAligned _ (fun acc ix hacc => ?_) _ _ ⟨rfl, rfl, by simp⟩
    refine foldl_preserves accAligned _ (fun acc iy hacc => ?_) _ _ hacc
    refine foldl_preserves accAligned _ (fun acc iz hacc => ?_) _ _ hacc
    exact marchCell_aligned hacc
  obtain ⟨h1, h2, h3⟩ := key
  unfold march
  dsimp only
  refine ⟨?_, ?_, ?_⟩
  · exact (Nat.mul_div_cancel' h3).symm
  · rw [Nat.mul_div_cancel' h3]
    exact h1
  · rw [Nat.mul_div_cancel' h3]
    exact h2

lemma length_range_flatMap3 {α : Type} (n : ℕ) (g1 g2 g3 : ℕ → α) :
    ((List.range n).flatMap fun i => [g1 i, g2 i, g3 i]).length = n * 3 := by
  induction n with
  | zero => simp
  | succ m ih =>
    rw [List.range_succ, List.flatMap_append, List.length_append, ih]
    simp [Nat.succ_mul]

/-- C5: in the sequential variant march returns arrays with
positions.length = normals.length = colors.length = 9·triangleCount; in the
GPU orchestrator the packaged result satisfies the same equalities and its
reported triangleCount never exceeds the (positive) buffer capacity. -/
theorem C5_result_lengths :
    (∀ (N : ℕ × ℕ × ℕ) (iso : ℝ) (gmin gmax : Vec3) (f : DensityField),
        (march N iso gmin gmax f).positions.length =
            9 * (march N iso gmin gmax f).triangleCount ∧
          (march N iso gmin gmax f).normals.length =
            9 * (march N iso gmin gmax f).triangleCount ∧
          (march N iso gmin gmax f).colors.length =
            9 * (march N iso gmin gmax f).triangleCount) ∧
      (∀ (counter cap : ℕ) (vertexData : ℕ → ℝ),
        (gpuPackageResult counter cap vertexData).positions.length =
            9 * (gpuPackageResult counter cap vertexData).triangleCount ∧
          (gpuPackageResult counter cap vertexData).normals.length =
            9 * (gpuPackageResult counter cap vertexData).triangleCount ∧
          (gpuPackageResult counter cap vertexData).colors.length =
            9 * (gpuPackageResult counter cap vertexData).triangleCount ∧
          (cap ≠ 0 → (gpuPackageResult counter cap vertexData).triangleCount ≤ cap)) := by
  refine ⟨march_aligned, ?_⟩
  intro counter cap vertexData
  by_cases hz : reportedTriangleCount counter cap = 0
  · rw [gpuPackageResult, if_pos hz]
    refine ⟨rfl, rfl, rfl, fun _ => Nat.zero_le _⟩
  · rw [gpuPackageResult, if_neg hz]
    have hact : min (reportedTriangleCount counter cap)
        (if cap = 0 then reportedTriangleCount counter cap else cap) =
        reportedTriangleCount counter cap := by
      by_cases hc : cap = 0
      · simp [hc]
      · rw [if_neg hc]
        exact Nat.min_eq_left (by
          unfold reportedTriangleCount
          rw [if_neg hc]
          exact Nat.min_le_right _ _)
    simp only [hact]
    refine ⟨?_, ?_, ?_, ?_⟩
    · rw [length_range_flatMap3]
      ring
    · rw [length_range_flatMap3]
      ring
    · rw [length_range_flatMap3]
      ring
    · intro hc
      unfold reportedTriangleCount
      rw [if_neg hc]
      exact Nat.min_le_right _ _

/-- C5 witness: the GPU packaging at counter 7, capacity 5. -/
theorem C5_witness :
    (5 : ℕ) ≠ 0 ∧ (gpuPackageResult 7 5 (fun _ => 0)).triangleCount ≤ 5 := by
  exact ⟨by norm_num, ((C5_result_lengths.2 7 5 (fun _ => 0)).2.2.2 (by norm_num))⟩

/-! ## Claim C6 -/

/-- C6 counterexample: at gridResolution 256 the preallocated capacity is
not min(6·N·N·2·5, N³) = 3932160 triangles: the 512 MiB vertex-buffer clamp
reduces it to 3728270. -/
theorem C6_counterexample :
    maxTriangleCount 256 (512 * 1024 * 1024) = 3728270 ∧
      min (6 * 256 * 256 * 2 * 5) (256 * 256 * 256) = 3932160 ∧
      (3728270 : ℕ) ≠ 3932160 := by
  refine ⟨?_, by norm_num, by norm_num⟩
  rfl

/-- C6 (amended): the capacity is min(6·N·N·2·5, N³) further clamped so the
48-byte-per-vertex buffer fits in maxAllowed bytes — the formula is exact
whenever the requested buffer fits; the shader writes no vertex data for a
triangle slot at or past the capacity; and the count reported to the caller
is min(counter, capacity) whenever the capacity is nonzero.  Excess
triangles are dropped with no other signal. -/
theorem C6_overflow_clamping :
    (∀ N M : ℕ, vertexBufferSize N ≤ M →
        maxTriangleCount N M = min (6 * N * N * 2 * 5) (N * N * N)) ∧
      (∀ t N M : ℕ, maxTriangleCount N M ≤ t →
        ¬gpuWritesTriangle t (vertexArrayLength N M)) ∧
      (∀ counter cap : ℕ, cap ≠ 0 →
        reportedTriangleCount counter cap = min counter cap) := by
  refine ⟨?_, ?_, ?_⟩
  · intro N M h
    unfold maxTriangleCount actualBufferSize
    rw [Nat.min_eq_left h]
    unfold vertexBufferSize maxTriangles surfaceVoxels
    rw [Nat.mul_div_cancel _ (by norm_num : (0 : ℕ) < 48),
      Nat.mul_div_cancel _ (by norm_num : (0 : ℕ) < 3)]
  · intro t N M h
    unfold gpuWritesTriangle
    have he : maxTriangleCount N M = vertexArrayLength N M / 3 := rfl
    rw [he] at h
    omega
  · intro counter cap hc
    unfold reportedTriangleCount
    rw [if_neg hc]

/-- C6 witness: grid resolution 64 under the 512 MiB limit — the capacity
formula is exact, a write at the capacity slot is rejected, and the
reported count is the clamped minimum. -/
theorem C6_witness :
    (vertexBufferSize 64 ≤ 512 * 1024 * 1024 ∧
        maxTriangleCount 64 (512 * 1024 * 1024) = min (6 * 64 * 64 * 2 * 5) (64 * 64 * 64)) ∧
      (¬gpuWritesTriangle (maxTriangleCount 64 (512 * 1024 * 1024))
        (vertexArrayLength 64 (512 * 1024 * 1024))) ∧
      ((5 : ℕ) ≠ 0 ∧ reportedTriangleCount 7 5 = min 7 5) := by
  refine ⟨⟨by decide, C6_overflow_clamping.1 64 (512 * 1024 * 1024) (by decide)⟩, ?_, ?_⟩
  · exact C6_overflow_clamping.2.1 _ 64 (512 * 1024 * 1024) (le_refl _)
  · exact ⟨by norm_num, C6_overflow_clamping.2.2 7 5 (by norm_num)⟩

/-! ## Claim C7 -/

lemma foldl_id {α β : Type} (f : β → α → β) (h : ∀ b a, f b a = b) (L : List α)
    (b : β) : L.foldl f b = b := by
  induction L generalizing b with
  | nil => rfl
  | cons a L ih => rw [List.foldl_cons, h b a]; exact ih b

lemma getDensity_zero {N : ℕ × ℕ × ℕ} {f : DensityField}
    (hf : ∀ idx, f.density idx = 0) (x y z : ℕ) : getDensity N f x y z = 0 := by
  unfold getDensity
  split
  · rfl
  · exact hf _

lemma cpuCubeIndex_zero_skip (cv : ℕ → ℝ) (h : ∀ k, k < 8 → cv k = 0) (iso : ℝ) :
    edgeTable.getD (cpuCubeIndex cv iso) 0 = 0 := by
  unfold cpuCubeIndex
  rw [h 0 (by norm_num), h 1 (by norm_num), h 2 (by norm_num), h 3 (by norm_num),
    h 4 (by norm_num), h 5 (by norm_num), h 6 (by norm_num), h 7 (by norm_num)]
  by_cases hi : (0 : ℝ) > iso
  · simp only [if_pos hi]
    decide
  · simp only [if_neg hi]
    decide

lemma marchCell_zero (N : ℕ × ℕ × ℕ) (iso : ℝ) (gmin gmax : Vec3) {f : DensityField}
    (hf : ∀ idx, f.density idx = 0) (ix iy iz : ℕ) (acc : MarchAcc) :
    marchCell N iso gmin gmax f ix iy iz acc = acc := by
  rw [marchCell]
  rw [if_pos]
  apply cpuCubeIndex_zero_skip
  intro k hk
  interval_cases k <;> exact getDensity_zero hf _ _ _

lemma march_empty {N : ℕ × ℕ × ℕ} {iso : ℝ} {gmin gmax : Vec3} {f : DensityField}
    (hf : ∀ idx, f.density idx = 0) :
    march N iso gmin gmax f =
      { positions := [], normals := [], colors := [], triangleCount := 0 } := by
  have hcell := marchCell_zero N iso gmin gmax hf
  have h3 : ∀ ix iy (acc : MarchAcc), (List.range (N.2.2 - 1)).foldl
      (fun acc iz => marchCell N iso gmin gmax f ix iy iz acc) acc = acc := by
    intro ix iy acc
    exact foldl_id _ (fun b a => hcell ix iy a b) _ _
  have h2 : ∀ ix (acc : MarchAcc), (List.range (N.2.1 - 1)).foldl
      (fun acc iy => (List.range (N.2.2 - 1)).foldl
        (fun acc iz => marchCell N iso gmin gmax f ix iy iz acc) acc) acc = acc := by
    intro ix acc
    exact foldl_id _ (fun b a => h3 ix a b) _ _
  have h1 : (List.range (N.1 - 1)).foldl (fun acc ix => (List.range (N.2.1 - 1)).foldl
      (fun acc iy => (List.range (N.2.2 - 1)).foldl
        (fun acc iz => marchCell N iso gmin gmax f ix iy iz acc) acc) acc)
      ({ vertices := [], normals := [], colors := [] } : MarchAcc) =
      { vertices := [], normals := [], colors := [] } :=
    foldl_id _ (fun b a => h2 a b) _ _
  unfold march
  rw [h1]
  rfl

lemma gpuCubeIndex_zero_skip (cv : ℕ → ℝ) (h : ∀ k, k < 8 → cv k = 0) (iso : ℝ) :
    gpuEdgeTable.getD (gpuCubeIndex cv iso) 0 = 0 := by
  unfold gpuCubeIndex
  rw [show List.range 8 = [0, 1, 2, 3, 4, 5, 6, 7] from rfl]
  simp only [List.foldl_cons, List.foldl_nil]
  rw [h 0 (by norm_num), h 1 (by norm_num), h 2 (by norm_num), h 3 (by norm_num),
    h 4 (by norm_num), h 5 (by norm_num), h 6 (by norm_num), h 7 (by norm_num)]
  by_cases hi : (0 : ℝ) < iso
  · simp only [if_pos hi]
    decide
  · simp only [if_neg hi]
    decide

lemma gpuMarchCellTriangles_zero (N : ℕ × ℕ × ℕ) (iso : ℝ) (gmin gmax : Vec3)
    {density : ℕ → ℝ} (hd : ∀ idx, density idx = 0) (vc : ℕ → Vec3) (x y z : ℕ) :
    gpuMarchCellTriangles N iso gmin gmax density vc x y z = 0 := by
  rw [gpuMarchCellTriangles]
  split
  · rfl
  · rw [if_pos]
    apply gpuCubeIndex_zero_skip
    intro k hk
    interval_cases k <;> exact hd _

lemma gpuMarchCounter_zero {N : ℕ × ℕ × ℕ} {iso : ℝ} {gmin gmax : Vec3}
    {density : ℕ → ℝ} (hd : ∀ idx, density idx = 0) (vc : ℕ → Vec3) :
    gpuMarchCounter N iso gmin gmax density vc = 0 := by
  have hcell := gpuMarchCellTriangles_zero N iso gmin gmax hd vc
  have h3 : ∀ x y (c : ℕ), (List.range N.2.2).foldl
      (fun c z => c + gpuMarchCellTriangles N iso gmin gmax density vc x y z) c = c := by
    intro x y c
    exact foldl_id _ (fun b a => by rw [hcell x y a, Nat.add_zero]) _ _
  have h2 : ∀ x (c : ℕ), (List.range N.2.1).foldl
      (fun c y => (List.range N.2.2).foldl
        (fun c z => c + gpuMarchCellTriangles N iso gmin gmax density vc x y z) c) c = c := by
    intro x c
    exact foldl_id _ (fun b a => h3 x a b) _ _
  unfold gpuMarchCounter
  exact foldl_id _ (fun b a => h2 a b) _ _

/-- C7 counterexample: the sequential reconstruct does not return
immediately on a zero point count — the bounding-box stage still runs and
overwrites the persisted gridMin with the fold's initial value +∞ (modelled
in EReal), whereas an immediate return would leave the prior finite value
-60 in place. -/
theorem C7_counterexample :
    (cpuReconstruct CPUMC.default demoPositions none 0).2.gridMin.1 = (⊤ : EReal) ∧
      CPUMC.default.gridMin.1 = ((-60 : ℝ) : EReal) ∧
      (⊤ : EReal) ≠ ((-60 : ℝ) : EReal) := by
  refine ⟨?_, rfl, (EReal.coe_ne_top (-60)).symm⟩
  simp only [cpuReconstruct]
  exact EReal.top_sub_coe _

/-- C7 (amended): a reconstruct call with count = 0 produces the empty
result with triangleCount 0 for any parameters — but by running the
pipeline on an all-zero density field (whose cube indices hit edge-table
zeroes), not by an early return.  The sequential variant returns empty
arrays, and in the GPU pipeline the splat pass over zero points leaves all
accumulators cleared, the normalized density is identically 0, the march
counter stays 0, and the readback packages the empty result. -/
theorem C7_zero_count_empty :
    (∀ (self : CPUMC) (positions : ℕ → ℝ) (colors : Option (ℕ → ℝ)),
        (cpuReconstruct self positions colors 0).1 =
          { positions := [], normals := [], colors := [], triangleCount := 0 }) ∧
      (∀ (N : ℕ × ℕ × ℕ) (iso radius : ℝ) (gmin gmax gmin2 gmax2 : Vec3)
          (points colors vc : ℕ → Vec3) (cap : ℕ) (vertexData : ℕ → ℝ),
        gpuPackageResult
            (gpuMarchCounter N iso gmin2 gmax2
              (fun idx => normalizeDensity
                ((gpuSplatAll N gmin gmax radius points colors 0).voxelDensity idx)) vc)
            cap vertexData =
          { positions := [], normals := [], colors := [], triangleCount := 0 }) := by
  constructor
  · intro self positions colors
    exact march_empty (fun _ => rfl)
  · intro N iso radius gmin gmax gmin2 gmax2 points colors vc cap vertexData
    have hd : ∀ idx, normalizeDensity
        ((gpuSplatAll N gmin gmax radius points colors 0).voxelDensity idx) = 0 := by
      intro idx
      have h0 : (gpuSplatAll N gmin gmax radius points colors 0).voxelDensity idx = 0 := rfl
      rw [h0]
      norm_num [normalizeDensity, Real.exp_zero]
    rw [gpuMarchCounter_zero hd]
    rw [gpuPackageResult,
      if_pos (show reportedTriangleCount 0 cap = 0 by
        unfold reportedTriangleCount; exact Nat.zero_min _)]

/-! ## Claim C9 -/

/-- C9: the sequential reconstruct is deterministic.  A second call with the
same positions, colors and count, run on the object state left behind by
the first call (which overwrote gridMin/gridMax), returns an identical
result record (triangleCount and all three arrays) and an identical state:
the bounds are recomputed from the inputs alone and the remaining fields
are untouched. -/
theorem C9_sequential_deterministic :
    ∀ (self : CPUMC) (positions : ℕ → ℝ) (colors : Option (ℕ → ℝ)) (count : ℕ),
      (cpuReconstruct ((cpuReconstruct self positions colors count).2)
          positions colors count).1 =
        (cpuReconstruct self positions colors count).1 ∧
      (cpuReconstruct ((cpuReconstruct self positions colors count).2)
          positions colors count).2 =
        (cpuReconstruct self positions colors count).2 := by
  intro self positions colors count
  exact ⟨rfl, rfl⟩

/-! ## Claim C10 -/

set_option maxRecDepth 10000 in
lemma tables_consistent_core :
    ∀ ci : ℕ, ci < 256 →
      (triangleTriples (triTable.getD ci [])).length ≤ 5 ∧
        ∀ e ∈ sentinelEntries (triTable.getD ci []),
          0 ≤ e ∧ e ≤ 11 ∧ Nat.testBit (edgeTable.getD ci 0) e.toNat = true := by
  decide

/-- C10: for every cube index, the triangle-table row encodes at most 5
triangles, every edge index read before the -1 sentinel is one of the 12
cube edges whose bit is active in the matching edge-table entry, and
consequently every vertList/colorList slot the emission loop of march reads
(a slot populated exactly for the active edge-table bits) was previously
written: its lookup is some, never a missed write. -/
theorem C10_lookup_table_consistency :
    ∀ ci : ℕ, ci < 256 →
      (triangleTriples (triTable.getD ci [])).length ≤ 5 ∧
        ∀ e ∈ sentinelEntries (triTable.getD ci []),
          0 ≤ e ∧ e ≤ 11 ∧ Nat.testBit (edgeTable.getD ci 0) e.toNat = true ∧
            ∀ f : ℕ → Vec3,
              (lookupEdge (fun k => if k < 12 ∧ Nat.testBit (edgeTable.getD ci 0) k
                then some (f k) else none) e).isSome = true := by
  intro ci hci
  obtain ⟨hlen, hrow⟩ := tables_consistent_core ci hci
  refine ⟨hlen, fun e he => ?_⟩
  obtain ⟨h0, h11, hbit⟩ := hrow e he
  refine ⟨h0, h11, hbit, fun f => ?_⟩
  unfold lookupEdge
  rw [if_neg (by omega)]
  dsimp only
  rw [if_pos ⟨by omega, hbit⟩]
  rfl

/-- C10 witness: row 1 of the triangle table, whose first entry is edge 0;
its vertList slot is populated. -/
theorem C10_witness :
    ((1 : ℕ) < 256) ∧ ((0 : ℤ) ∈ sentinelEntries (triTable.getD 1 [])) ∧
      (lookupEdge (fun k => if k < 12 ∧ Nat.testBit (edgeTable.getD 1 0) k
        then some ((((0 : ℝ), (0 : ℝ), (0 : ℝ)) : Vec3)) else none) 0).isSome = true := by
  have h1 : (1 : ℕ) < 256 := by norm_num
  have h2 : (0 : ℤ) ∈ sentinelEntries (triTable.getD 1 []) := by decide
  exact ⟨h1, h2,
    ((C10_lookup_table_consistency 1 h1).2 0 h2).2.2.2 (fun _ => ((0 : ℝ), (0 : ℝ), (0 : ℝ)))⟩

end PCMesh
